import Mathlib

/-!
Verification development for the `chedraui_shopping_list` integration
(`api.py`, `todo.py`, `const.py`).  Python values flowing through the
normalizers are modelled by the `Json` type; Python floats are modelled as
rational numbers built exclusively through `mkRat` so that every definition
evaluates inside the kernel.  Each definition mirrors one function of the
source; theorems about the frozen claims follow at the end of the file.
-/

/-! ### Decimal digits -/

/-- Numeric value of a decimal digit character. -/
def digitVal (c : Char) : ℕ := c.toNat - 48

/-- Value of a decimal digit string (most significant first). -/
def digitsVal (cs : List Char) : ℕ := cs.foldl (fun a c => 10 * a + digitVal c) 0

/-- Decimal digit character for a value below ten. -/
def natDigitChar (d : ℕ) : Char := Char.ofNat (48 + d)

/-- Decimal digit characters of a natural number, most significant first;
structural recursion on a fuel argument so that the kernel can evaluate it. -/
def natToDigitsAux : ℕ → ℕ → List Char
  | 0, _ => []
  | fuel + 1, n =>
    if n < 10 then [natDigitChar n]
    else natToDigitsAux fuel (n / 10) ++ [natDigitChar (n % 10)]

/-- Decimal digit characters of a natural number, most significant first. -/
def natToDigits (n : ℕ) : List Char := natToDigitsAux (n + 1) n

/-! ### Python value model -/

/-- JSON-like Python values as decoded from the remote service.  `null`
stands both for JSON null and for Python `None` (the `json` module maps the
former to the latter).  Floats are modelled as rational numbers. -/
inductive Json where
  | null : Json
  | bool : Bool → Json
  | int : Int → Json
  | float : ℚ → Json
  | str : String → Json
  | arr : List Json → Json
  | obj : List (String × Json) → Json

/-- Python truthiness (`bool(x)`): `None`, `False`, zero, empty string and
empty containers are falsy. -/
def pyTruthy : Json → Bool
  | .null => false
  | .bool b => b
  | .int n => n != 0
  | .float q => decide (q ≠ 0)
  | .str s => s != ""
  | .arr xs => !xs.isEmpty
  | .obj kvs => !kvs.isEmpty

/-- Python `a or b`. -/
def pyOr (a b : Json) : Json := if pyTruthy a then a else b

/-- `mapping.get(key)`: the stored value, or `None` when the key is absent.
Total lookup used once the receiver is known to be a mapping; a non-mapping
receiver yields `None` (callers that could raise model that separately). -/
def objGet (v : Json) (k : String) : Json :=
  match v with
  | .obj kvs => (kvs.lookup k).getD .null
  | _ => .null

/-- First exponent at or above `k` with `d ∣ 10 ^ k`, searching through the
given fuel and returning the last candidate when exhausted. -/
def decExpAux (d : ℕ) : ℕ → ℕ → ℕ
  | 0, k => k
  | fuel + 1, k => if d ∣ 10 ^ k then k else decExpAux d fuel (k + 1)

/-- Smallest exponent `k` with `d ∣ 10 ^ k` (capped at 1100, beyond any
IEEE double); used to render a float's exact decimal expansion. -/
def decExp (d : ℕ) : ℕ := decExpAux d 1100 0

/-- Digit string with its trailing zeros removed; Python's shortest float
repr keeps no trailing zero among the significant digits. -/
def stripZeros (ds : List Char) : List Char :=
  (ds.reverse.dropWhile (fun c => c == '0')).reverse

/-- Exponent field of Python float scientific notation, zero-padded to at
least two digits (`1e+05`, `1e+16`, `1e+100`). -/
def expDigits (m : ℕ) : List Char :=
  if m < 10 then ['0', natDigitChar m] else natToDigits m

/-- Scientific rendering of the value `v / 10 ^ k`: the significant digits
of `v` with a dot after the first when more than one remains, then `e`, a
sign, and the decimal exponent `L - k - 1` (`L` the digit count of `v`),
as in `1e+16`, `1.5e+16`, `9.999e-05`. -/
def sciChars (v k : ℕ) : List Char :=
  let ex : ℤ := ((natToDigits v).length : ℤ) - (k : ℤ) - 1
  let head := match stripZeros (natToDigits v) with
    | [] => ['0']
    | [d] => [d]
    | d :: rest => d :: '.' :: rest
  head ++ 'e' :: (if ex < 0 then '-' :: expDigits ex.natAbs else '+' :: expDigits ex.natAbs)

/-- Decimal character rendering of a non-negative float, Python `repr`
style; `n / 10 ^ k` is the exact value.  Zero prints as `0.0`.  CPython
switches to scientific notation when the decimal-point position `L - k`
(`L` the digit count of `n`) exceeds 16 or is at most -4 — equivalently,
on the scaled integer: `10 ^ (k + 16) ≤ n`, resp. `n * 10 ^ 4 < 10 ^ k`
(`str(1e16) = '1e+16'`, `str(0.00009999) = '9.999e-05'`).  Otherwise it
prints fixed notation with one dot and at least one digit on each side
(`3.0`, `2.5`, `0.01`). -/
def pyFloatReprChars (q : ℚ) : List Char :=
  let k := decExp q.den
  let n := q.num.natAbs * 10 ^ k / q.den
  if n = 0 then ['0', '.', '0']
  else if 10 ^ (k + 16) ≤ n ∨ n * 10 ^ 4 < 10 ^ k then sciChars n k
  else if k = 0 then natToDigits n ++ ['.', '0']
  else
    let s := natToDigits n
    let s2 := List.replicate (k + 1 - s.length) '0' ++ s
    s2.take (s2.length - k) ++ '.' :: s2.drop (s2.length - k)

/-- Python `repr`/`str` of a float: `-` prefix on negatives, fixed or
scientific notation per `pyFloatReprChars`. -/
def pyFloatRepr (q : ℚ) : String :=
  if q < 0 then String.mk ('-' :: pyFloatReprChars (-q)) else String.mk (pyFloatReprChars q)

/-- The single-quote character used by Python `repr` of strings. -/
def quoteChar : Char := Char.ofNat 39

mutual

/-- Python `repr` of a value (element rendering inside containers). -/
def pyRepr : Json → String
  | .null => "None"
  | .bool true => "True"
  | .bool false => "False"
  | .int n => toString n
  | .float q => pyFloatRepr q
  | .str s => String.mk (quoteChar :: s.data ++ [quoteChar])
  | .arr xs => "[" ++ String.intercalate ", " (pyReprList xs) ++ "]"
  | .obj kvs => "\x7b" ++ String.intercalate ", " (pyReprKVs kvs) ++ "\x7d"

/-- `repr` of list elements. -/
def pyReprList : List Json → List String
  | [] => []
  | x :: xs => pyRepr x :: pyReprList xs

/-- `repr` of dict entries. -/
def pyReprKVs : List (String × Json) → List String
  | [] => []
  | (k, v) :: kvs =>
      (String.mk (quoteChar :: k.data ++ [quoteChar]) ++ ": " ++ pyRepr v) :: pyReprKVs kvs

end

/-- Python `str(x)`. -/
def pyStr : Json → String
  | .str s => s
  | v => pyRepr v

/-! ### Python `float(...)` and the numeric coercions of the source -/

/-- Whitespace trim on character lists (Python `str.strip`). -/
def trimChars (cs : List Char) : List Char :=
  ((cs.dropWhile Char.isWhitespace).reverse.dropWhile Char.isWhitespace).reverse

/-- Continuation of the unsigned float fragment after splitting off the
leading digit run `ip`. -/
def parseUnsignedAfter (ip rest : List Char) : Option ℚ :=
  match rest with
  | [] => if ip.isEmpty then none else some (mkRat (digitsVal ip) 1)
  | c :: rest2 =>
    if c = '.' then
      let fp := rest2.takeWhile Char.isDigit
      let r3 := rest2.dropWhile Char.isDigit
      if r3.isEmpty && !(ip.isEmpty && fp.isEmpty) then
        some (mkRat (digitsVal ip * 10 ^ fp.length + digitsVal fp) (10 ^ fp.length))
      else none
    else none

/-- Unsigned decimal-fraction fragment of Python `float(...)`:
digits, optional dot and digits, at least one digit overall. -/
def parseUnsignedFloatChars (cs : List Char) : Option ℚ :=
  parseUnsignedAfter (cs.takeWhile Char.isDigit) (cs.dropWhile Char.isDigit)

/-- Python `float(s)` on the decimal fragment used by the source (optional
sign, digits with an optional fractional part, surrounding whitespace). -/
def pyFloatOfString (s : String) : Option ℚ :=
  match trimChars s.data with
  | [] => parseUnsignedFloatChars []
  | c :: cs =>
    if c = '+' then parseUnsignedFloatChars cs
    else if c = '-' then (parseUnsignedFloatChars cs).map (fun q => -q)
    else parseUnsignedFloatChars (c :: cs)

/-- `value.replace(",", ".")` — single-character replacement. -/
def replaceCommaDot (s : String) : String :=
  String.mk (s.data.map (fun c => if c = ',' then '.' else c))

/-- `todo._coerce_float(value, default=...)`: numbers pass through (Python
`bool` is an `int` subclass), strings are parsed after comma→dot
replacement, everything else yields the default. -/
def coerceFloat (value : Json) (default : Option ℚ) : Option ℚ :=
  match value with
  | .null => default
  | .bool b => some (mkRat (if b then 1 else 0) 1)
  | .int n => some (mkRat n 1)
  | .float q => some q
  | .str s =>
    match pyFloatOfString (replaceCommaDot s) with
    | some q => some q
    | none => default
  | _ => default

/-- `api.ChedrauiClient._extract_float` — same body as `todo._coerce_float`. -/
def extractFloat (value : Json) (default : Option ℚ) : Option ℚ := coerceFloat value default

/-! ### `const.py` -/

def PIECE_UNIT : String := "EA"
def WEIGHT_UNIT_KG : String := "KGM"
def WEIGHT_UNIT_G : String := "GRM"
def WEIGHT_UNIT_LB : String := "LBR"
def VOLUME_UNIT_L : String := "LTR"
def VOLUME_UNIT_ML : String := "MLT"

def MEASUREMENT_TYPE_PIECE : String := "piece"
def MEASUREMENT_TYPE_WEIGHT : String := "weight"
def MEASUREMENT_TYPE_VOLUME : String := "volume"

/-- `const.UNIT_ALIASES`. -/
def UNIT_ALIASES : List (String × String) :=
  [("pieza", PIECE_UNIT), ("piezas", PIECE_UNIT), ("pz", PIECE_UNIT),
   ("pieza(s)", PIECE_UNIT), ("piece", PIECE_UNIT), ("pieces", PIECE_UNIT),
   ("ea", PIECE_UNIT), ("unit", PIECE_UNIT), ("units", PIECE_UNIT),
   ("unidad", PIECE_UNIT), ("unidades", PIECE_UNIT),
   ("kg", WEIGHT_UNIT_KG), ("kilogram", WEIGHT_UNIT_KG), ("kilograms", WEIGHT_UNIT_KG),
   ("kilogramo", WEIGHT_UNIT_KG), ("kilogramos", WEIGHT_UNIT_KG),
   ("kilo", WEIGHT_UNIT_KG), ("kilos", WEIGHT_UNIT_KG),
   ("g", WEIGHT_UNIT_G), ("gr", WEIGHT_UNIT_G), ("gram", WEIGHT_UNIT_G),
   ("grams", WEIGHT_UNIT_G), ("gramo", WEIGHT_UNIT_G), ("gramos", WEIGHT_UNIT_G),
   ("lb", WEIGHT_UNIT_LB), ("lbs", WEIGHT_UNIT_LB), ("pound", WEIGHT_UNIT_LB),
   ("pounds", WEIGHT_UNIT_LB),
   ("l", VOLUME_UNIT_L), ("lt", VOLUME_UNIT_L), ("liter", VOLUME_UNIT_L),
   ("liters", VOLUME_UNIT_L), ("litro", VOLUME_UNIT_L), ("litros", VOLUME_UNIT_L),
   ("ml", VOLUME_UNIT_ML), ("mililitro", VOLUME_UNIT_ML), ("mililitros", VOLUME_UNIT_ML)]

/-- `const.UNIT_TO_MEASUREMENT_TYPE`. -/
def UNIT_TO_MEASUREMENT_TYPE : List (String × String) :=
  [(PIECE_UNIT, MEASUREMENT_TYPE_PIECE),
   (WEIGHT_UNIT_KG, MEASUREMENT_TYPE_WEIGHT),
   (WEIGHT_UNIT_G, MEASUREMENT_TYPE_WEIGHT),
   (WEIGHT_UNIT_LB, MEASUREMENT_TYPE_WEIGHT),
   (VOLUME_UNIT_L, MEASUREMENT_TYPE_VOLUME),
   (VOLUME_UNIT_ML, MEASUREMENT_TYPE_VOLUME)]

/-- Python `str.lower` (character-wise, as used on the ASCII unit codes). -/
def strLower (s : String) : String := String.mk (s.data.map Char.toLower)

/-- Python `str.upper`. -/
def strUpper (s : String) : String := String.mk (s.data.map Char.toUpper)

/-- The shared alias-resolution idiom `UNIT_ALIASES.get(text.lower(), text.upper())`,
used by both `todo.py` and `api.py`. -/
def resolveAlias (s : String) : String := (UNIT_ALIASES.lookup (strLower s)).getD (strUpper s)

/-! ### The regular-expression scans (`todo._DESCRIPTION_REGEX`,
`todo._PRODUCT_ID_REGEX`, and the identical `api._UNIT_IN_TEXT_REGEX`) -/

/-- Character class of the `unit` group, `[a-zA-Záéíóúñ]` with `re.IGNORECASE`. -/
def isUnitLetter (c : Char) : Bool :=
  ('a' ≤ c && c ≤ 'z') || ('A' ≤ c && c ≤ 'Z')
    || ['á', 'é', 'í', 'ó', 'ú', 'ñ', 'Á', 'É', 'Í', 'Ó', 'Ú', 'Ñ'].contains c

/-- Tail of the quantity/unit pattern, `\s*(?P<unit>[a-zA-Záéíóúñ]+)`:
greedy whitespace skip, then a non-empty greedy letter run. -/
def numUnitFinish (q r : List Char) : Option (List Char × List Char) :=
  let u := (r.dropWhile Char.isWhitespace).takeWhile isUnitLetter
  if u.isEmpty then none else some (q, u)

/-- Continuation of the quantity/unit pattern after the leading digit run
`ds`, covering the optional `(?:[\.,]\d+)?` with its backtracking point. -/
def matchAfterInt (ds rest : List Char) : Option (List Char × List Char) :=
  match rest with
  | c :: r1 =>
    if c = '.' ∨ c = ',' then
      let fs := r1.takeWhile Char.isDigit
      let r2 := r1.dropWhile Char.isDigit
      if fs.isEmpty then numUnitFinish ds rest
      else
        match numUnitFinish (ds ++ c :: fs) r2 with
        | some res => some res
        | none => numUnitFinish ds rest
    else numUnitFinish ds rest
  | [] => numUnitFinish ds []

/-- Match `(?P<quantity>\d+(?:[\.,]\d+)?)\s*(?P<unit>[a-zA-Záéíóúñ]+)` at the
start of `cs`, with the engine's greedy matching and the one backtracking
point at the optional decimal part; returns the two captured groups. -/
def matchNumUnitAt (cs : List Char) : Option (List Char × List Char) :=
  let ds := cs.takeWhile Char.isDigit
  if ds.isEmpty then none
  else matchAfterInt ds (cs.dropWhile Char.isDigit)

/-- `re.search` with the quantity/unit pattern: leftmost match wins. -/
def searchNumUnit : List Char → Option (List Char × List Char)
  | [] => none
  | c :: cs =>
    match matchNumUnitAt (c :: cs) with
    | some r => some r
    | none => searchNumUnit cs

/-- `\w` (ASCII model). -/
def isWordChar (c : Char) : Bool := c.isAlphanum || c = '_'

/-- Match `product_id\s*[:=]\s*(?P<product_id>\w+)` (IGNORECASE) at the
start of `cs`; returns the captured id. -/
def matchProductIdAt (cs : List Char) : Option (List Char) :=
  if (cs.take 10).map Char.toLower = "product_id".data then
    let r := (cs.drop 10).dropWhile Char.isWhitespace
    match r with
    | c :: r2 =>
      if c = ':' ∨ c = '=' then
        let r3 := r2.dropWhile Char.isWhitespace
        let w := r3.takeWhile isWordChar
        if w.isEmpty then none else some w
      else none
    | [] => none
  else none

/-- `re.search` with the product-id pattern: leftmost match wins. -/
def searchProductId : List Char → Option (List Char)
  | [] => none
  | c :: cs =>
    match matchProductIdAt (c :: cs) with
    | some r => some r
    | none => searchProductId cs

/-! ### `todo.py`: text parser and reconciliation mapper -/

/-- `todo.ParsedText`. -/
structure ParsedText where
  quantity : Option ℚ
  unit : Option String
  measurement_type : Option String
  product_id : Option String
deriving DecidableEq

/-- `todo._parse_text`. -/
def parseText (text : String) : ParsedText :=
  let qu : Option ℚ × Option String × Option String :=
    match searchNumUnit text.data with
    | some (qcs, ucs) =>
      let quantity := coerceFloat (.str (String.mk qcs)) none
      let unitText := String.mk ucs
      if unitText ≠ "" then
        let u := resolveAlias unitText
        (quantity, some u, UNIT_TO_MEASUREMENT_TYPE.lookup u)
      else (quantity, none, none)
    | none => (none, none, none)
  let pid := (searchProductId text.data).map String.mk
  ⟨qu.1, qu.2.1, qu.2.2, pid⟩

/-- `api.CartItem`. -/
structure CartItem where
  item_id : String
  product_id : String
  name : String
  quantity : ℚ
  unit : String
  measurement_type : String
  price : Option ℚ := none
  original_payload : Option Json := none

/-- `api.ProductSummary`.  The normalizer always supplies a string `sku`;
`brand` is passed through verbatim, hence kept as a raw value. -/
structure ProductSummary where
  product_id : String
  sku : String
  name : String
  price : Option ℚ
  unit : Option String
  measurement_type : Option String
  category : Option String := none
  brand : Json := .null

/-- `homeassistant.components.todo.TodoItemStatus`, the two values used. -/
inductive TodoStatus where
  | needsAction
  | completed
deriving DecidableEq

/-- The host checklist item, restricted to the fields the integration
reads and writes. -/
structure TodoItem where
  summary : String
  uid : Option String := none
  status : TodoStatus := .needsAction
  description : Option String := none
  extra : Option (List (String × Json)) := none

def ATTR_QUANTITY : String := "quantity"
def ATTR_UNIT : String := "unit"
def ATTR_MEASUREMENT_TYPE : String := "measurement_type"

/-- `todo._normalize_str`. -/
def normalizeStr (value : Json) : Option String :=
  match value with
  | .null => none
  | .str s => if s ≠ "" then some (String.mk (trimChars s.data)) else none
  | _ => none

/-- `ChedrauiShoppingListEntity._normalize_unit` (todo.py). -/
def todoNormalizeUnit (unit : Json) : Option String :=
  match unit with
  | .null => none
  | .str s => if s ≠ "" then some (resolveAlias s) else none
  | _ => none

/-- Python truthiness of `item.extra` (a dict or `None`). -/
def extraTruthy : Option (List (String × Json)) → Bool
  | none => false
  | some kvs => !kvs.isEmpty

/-- `extra.get(key)`. -/
def extraGet (e : List (String × Json)) (k : String) : Json := (e.lookup k).getD .null

/-- Python `x or y` where `x` is an optional float and `y` a float. -/
def pyOrQF (a : Option ℚ) (b : ℚ) : ℚ :=
  match a with
  | some q => if q = 0 then b else q
  | none => b

/-- Python `x or y` on two optional floats. -/
def pyOrQQ (a b : Option ℚ) : Option ℚ :=
  match a with
  | some q => if q = 0 then b else some q
  | none => b

/-- Python `x or y` on two optional strings. -/
def pyOrSS (a b : Option String) : Option String :=
  match a with
  | some s => if s = "" then b else some s
  | none => b

/-- Parameters handed to `async_add_to_cart` by a create. -/
structure CreateParams where
  product_id : Option String
  quantity : ℚ
  unit : Option String
  measurement_type : Option String
deriving DecidableEq

/-- Tag-derived values of `async_create_todo_item` (todo.py lines 80-91):
defaults, then the structured `extra` tags when the dict is truthy. -/
def createTagParams (item : TodoItem) : CreateParams :=
  if extraTruthy item.extra then
    let e := item.extra.getD []
    let extraQuantity := coerceFloat (extraGet e ATTR_QUANTITY) none
    { product_id := normalizeStr (extraGet e "product_id")
      unit := todoNormalizeUnit (extraGet e ATTR_UNIT)
      measurement_type := normalizeStr (extraGet e ATTR_MEASUREMENT_TYPE)
      quantity := extraQuantity.getD 1 }
  else { product_id := none, quantity := 1, unit := none, measurement_type := none }

/-- Tag/description merge of `async_create_todo_item` (todo.py lines 79-99):
a truthy description is re-parsed and merged over the tag values with
Python `or` (and a truthiness test for `product_id`). -/
def createMergeParams (item : TodoItem) : CreateParams :=
  let t := createTagParams item
  match item.description with
  | some d =>
    if d ≠ "" then
      let parsed := parseText d
      { quantity := pyOrQF parsed.quantity t.quantity
        unit := pyOrSS parsed.unit t.unit
        measurement_type := pyOrSS parsed.measurement_type t.measurement_type
        product_id := if (parsed.product_id.getD "") ≠ "" then parsed.product_id else t.product_id }
    else t
  | none => t

/-- `ChedrauiShoppingListEntity._resolve_product_id` (todo.py lines 156-166),
with the results of the single `limit=1` search supplied as environment;
also returns the issued search calls as (query, limit) pairs. -/
def resolveProductId (summary : String) (searchResults : List ProductSummary) :
    Option String × List (String × ℕ) :=
  let s := String.mk (trimChars summary.data)
  if s = "" then (none, [])
  else if s.data.all Char.isDigit then (some s, [])
  else
    match searchResults with
    | [] => (none, [(s, 1)])
    | r :: _ => (some r.product_id, [(s, 1)])

/-- The add-to-cart invocation produced by a successful create. -/
structure AddCall where
  product_id : String
  quantity : ℚ
  unit : Option String
  measurement_type : Option String
deriving DecidableEq

/-- `async_create_todo_item` up to the `async_add_to_cart` call (todo.py
lines 79-111): merge, then product resolution from the summary; a
`ValueError` when no product resolves, in which case no add call is made. -/
def createPlan (item : TodoItem) (searchResults : List ProductSummary) :
    Except String AddCall × List (String × ℕ) :=
  let p := createMergeParams item
  match p.product_id with
  | some pid => (.ok ⟨pid, p.quantity, p.unit, p.measurement_type⟩, [])
  | none =>
    let r := resolveProductId item.summary searchResults
    match r.1 with
    | none => (.error "ValueError: Unable to find product for item", r.2)
    | some pid => (.ok ⟨pid, p.quantity, p.unit, p.measurement_type⟩, r.2)

/-- The remote effect chosen by `async_update_todo_item`. -/
inductive UpdateAction where
  | remove (uid : String)
  | update (item_id : String) (quantity : Option ℚ) (unit : Option String)
      (measurement_type : Option String)
deriving DecidableEq

/-- Tag-derived values of `async_update_todo_item` (todo.py lines 124-131);
all fields optional. -/
def updateTagParams (item : TodoItem) : Option ℚ × Option String × Option String :=
  if extraTruthy item.extra then
    let e := item.extra.getD []
    (coerceFloat (extraGet e ATTR_QUANTITY) none,
     todoNormalizeUnit (extraGet e ATTR_UNIT),
     normalizeStr (extraGet e ATTR_MEASUREMENT_TYPE))
  else (none, none, none)

/-- Tag/description merge of `async_update_todo_item` (todo.py lines
124-137); all fields stay optional. -/
def updateMergeParams (item : TodoItem) : Option ℚ × Option String × Option String :=
  let t := updateTagParams item
  match item.description with
  | some d =>
    if d ≠ "" then
      let parsed := parseText d
      (pyOrQQ parsed.quantity t.1, pyOrSS parsed.unit t.2.1,
       pyOrSS parsed.measurement_type t.2.2)
    else t
  | none => t

/-- `async_update_todo_item` (todo.py lines 115-144) up to the client call. -/
def updatePlan (item : TodoItem) : Except String UpdateAction :=
  match item.uid with
  | none => .error "ValueError: Todo item UID is required"
  | some uid =>
    if item.status = TodoStatus.completed then .ok (.remove uid)
    else
      let m := updateMergeParams item
      .ok (.update uid m.1 m.2.1 m.2.2)

/-- `ChedrauiShoppingListEntity._cart_item_to_todo` (todo.py lines 168-188). -/
def cartItemToTodo : Option CartItem → TodoItem
  | none => { summary := "", status := .needsAction }
  | some item =>
    let description :=
      if item.unit ≠ "" then
        "Cantidad: " ++ pyFloatRepr item.quantity ++ " " ++ item.unit
      else "Cantidad: " ++ pyFloatRepr item.quantity
    { summary := item.name
      uid := some item.item_id
      status := .needsAction
      description := some description
      extra := some [("product_id", .str item.product_id),
                     (ATTR_QUANTITY, .float item.quantity),
                     (ATTR_UNIT, .str item.unit),
                     (ATTR_MEASUREMENT_TYPE, .str item.measurement_type)] }

/-- Tail of `async_update_todo_item` (todo.py lines 146-150): locate the
refreshed record by uid, falling back to the caller's item when absent. -/
def updateFinish (item : TodoItem) (uid : String) (data : List CartItem) : TodoItem :=
  match data.find? (fun i => i.item_id == uid) with
  | some i => cartItemToTodo (some i)
  | none => item

/-! ### `api.py`: remote record normalizer -/

/-- First key of `keys` whose value in `raw` is a non-empty string
(the `for key in (...)` probing idiom of the extractors). -/
def firstStrOf (raw : Json) : List String → Option String
  | [] => none
  | k :: ks =>
    match objGet raw k with
    | .str s => if s ≠ "" then some s else firstStrOf raw ks
    | _ => firstStrOf raw ks

/-- `ChedrauiClient._extract_name` (api.py lines 368-373). -/
def extractName (raw : Json) : String :=
  (firstStrOf raw ["productName", "name", "description"]).getD "Producto"

/-- `ChedrauiClient._extract_unit` (api.py lines 375-386). -/
def extractUnit (raw : Json) : String :=
  match firstStrOf raw ["uom", "unitOfMeasure", "unit", "measure"] with
  | some v => resolveAlias v
  | none =>
    match pyOr (objGet raw "measurementUnit") (objGet raw "measurement") with
    | .str s =>
      if s ≠ "" then
        match UNIT_ALIASES.lookup (strLower s) with
        | some n => n
        | none => "EA"
      else "EA"
    | _ => "EA"

/-- Python iteration (`for raw in order_items`): lists yield elements,
strings their characters, dicts their keys; other values raise `TypeError`. -/
def pyIter (v : Json) : Except String (List Json) :=
  match v with
  | .arr xs => .ok xs
  | .str s => .ok (s.data.map (fun c => .str (String.mk [c])))
  | .obj kvs => .ok (kvs.map (fun kv => .str kv.1))
  | _ => .error "TypeError: not iterable"

/-- Per-record body of `_parse_cart_items` (api.py lines 330-365), for a
record already known to be a mapping: `none` when the record lacks a truthy
identity value and is skipped. -/
def parseCartRecord (raw : Json) : Option CartItem :=
  let item_id := pyStr (pyOr (objGet raw "orderItemId")
    (pyOr (objGet raw "id") (pyOr (objGet raw "itemId") (.str ""))))
  let product_id := pyStr (pyOr (objGet raw "productId")
    (pyOr (objGet raw "catEntryId")
      (pyOr (objGet raw "catalogEntryId") (pyOr (objGet raw "productPartNumber") (.str "")))))
  if item_id = "" then none
  else
    let name := extractName raw
    let quantity := (extractFloat (objGet raw "quantity") (some 1)).getD 1
    let unit := extractUnit raw
    let measurement_type := (UNIT_TO_MEASUREMENT_TYPE.lookup unit).getD MEASUREMENT_TYPE_PIECE
    let price := extractFloat (pyOr (objGet raw "price")
      (pyOr (objGet raw "offerPrice")
        (pyOr (objGet raw "unitPrice") (objGet raw "orderItemAmount")))) none
    some { item_id := item_id, product_id := product_id, name := name,
           quantity := quantity, unit := unit, measurement_type := measurement_type,
           price := price, original_payload := some raw }

/-- Record loop of `_parse_cart_items`: `None` records are skipped, mapping
records parsed, and any other record raises on its first `.get`. -/
def parseCartLoop : List Json → Except String (List CartItem)
  | [] => .ok []
  | raw :: rest =>
    match raw with
    | .null => parseCartLoop rest
    | .obj _ =>
      match parseCartLoop rest with
      | .error e => .error e
      | .ok items =>
        match parseCartRecord raw with
        | some item => .ok (item :: items)
        | none => .ok items
    | _ => .error "AttributeError: no attribute get"

/-- `ChedrauiClient._parse_cart_items` (api.py lines 319-366). -/
def parseCartItems (data : Json) : Except String (List CartItem) :=
  if !pyTruthy data then .ok []
  else
    let orderItems : Json :=
      match data with
      | .obj _ => pyOr (objGet data "orderItem") (pyOr (objGet data "orderItems") (.arr []))
      | .arr _ => data
      | _ => .arr []
    match pyIter orderItems with
    | .error e => .error e
    | .ok rs => parseCartLoop rs

/-- `ChedrauiClient._extract_search_name` (api.py lines 495-500). -/
def extractSearchName (raw : Json) : String :=
  (firstStrOf raw ["name", "productName", "shortDescription", "description"]).getD "Producto"

/-- `ChedrauiClient._extract_search_unit` (api.py lines 502-519). -/
def extractSearchUnit (raw : Json) : Option String :=
  match firstStrOf raw ["uom", "unitOfMeasure", "unit", "measure"] with
  | some v => some (resolveAlias v)
  | none =>
    let step2 : Option String :=
      match pyOr (objGet raw "unitOfMeasureText") (objGet raw "measurement") with
      | .str s => UNIT_ALIASES.lookup (strLower s)
      | _ => none
    match step2 with
    | some n => some n
    | none =>
      match pyOr (objGet raw "measurement") (objGet raw "measure") with
      | .str s =>
        match searchNumUnit s.data with
        | some (_, ucs) => some (resolveAlias (String.mk ucs))
        | none => none
      | _ => none

/-- `ChedrauiClient._infer_measurement_type_from_name` (api.py lines 521-528). -/
def inferMeasurementTypeFromName (name : String) : Option String :=
  match searchNumUnit name.data with
  | none => none
  | some (_, ucs) =>
    match UNIT_ALIASES.lookup (strLower (String.mk ucs)) with
    | none => none
    | some u => UNIT_TO_MEASUREMENT_TYPE.lookup u

/-- Per-record body of `_parse_search_results` (api.py lines 450-492), for a
mapping record: `none` when the record lacks a truthy product id. -/
def parseSearchRecord (raw : Json) : Option ProductSummary :=
  let product_id := pyStr (pyOr (objGet raw "partNumber")
    (pyOr (objGet raw "uniqueID") (pyOr (objGet raw "productId") (pyOr (objGet raw "id") (.str "")))))
  if product_id = "" then none
  else
    let sku := pyStr (pyOr (objGet raw "sku") (pyOr (objGet raw "partNumber") (.str product_id)))
    let name := extractSearchName raw
    let price := extractFloat (pyOr (objGet raw "price")
      (pyOr (objGet raw "offerPrice")
        (pyOr (objGet raw "bestPrice") (objGet raw "unitPrice")))) none
    let unit := extractSearchUnit raw
    let measurement_type :=
      match unit with
      | some u => if u ≠ "" then UNIT_TO_MEASUREMENT_TYPE.lookup u
                  else inferMeasurementTypeFromName name
      | none => inferMeasurementTypeFromName name
    let brand := objGet raw "brand"
    let categories := pyOr (objGet raw "category") (objGet raw "categoryPath")
    let category :=
      match categories with
      | .arr (x :: xs) =>
        match (x :: xs).getLast (by simp) with
        | .str s => some s
        | _ => none
      | _ => none
    some { product_id := product_id, sku := sku, name := name, price := price,
           unit := unit, measurement_type := measurement_type,
           category := category, brand := brand }

/-- Record loop of `_parse_search_results`. -/
def parseSearchLoop : List Json → Except String (List ProductSummary)
  | [] => .ok []
  | raw :: rest =>
    match raw with
    | .null => parseSearchLoop rest
    | .obj _ =>
      match parseSearchLoop rest with
      | .error e => .error e
      | .ok items =>
        match parseSearchRecord raw with
        | some item => .ok (item :: items)
        | none => .ok items
    | _ => .error "AttributeError: no attribute get"

/-- `ChedrauiClient._parse_search_results` (api.py lines 431-493). -/
def parseSearchResults (data : Json) : Except String (List ProductSummary) :=
  if !pyTruthy data then .ok []
  else
    match data with
    | .obj kvs =>
      let rawItems : Json :=
        if (kvs.lookup "catalogEntryView").isSome then (kvs.lookup "catalogEntryView").getD .null
        else
          match kvs.lookup "product" with
          | some (.obj pkvs) => (pkvs.lookup "docs").getD (.arr [])
          | _ => (kvs.lookup "items").getD (.arr [])
      match pyIter rawItems with
      | .error e => .error e
      | .ok rs => parseSearchLoop rs
    | .arr rs => parseSearchLoop rs
    | _ => .ok []

/-! ### `api.py`: outgoing unit normalization and write payloads -/

/-- `ChedrauiClient._default_unit_for_measurement` (api.py lines 408-416). -/
def defaultUnitForMeasurement (measurement_type : String) : Option String :=
  let m := strLower measurement_type
  if m = MEASUREMENT_TYPE_PIECE then some "EA"
  else if m = MEASUREMENT_TYPE_WEIGHT then some "KGM"
  else if m = MEASUREMENT_TYPE_VOLUME then some "LTR"
  else none

/-- Truthiness of an optional string argument (`if unit:`). -/
def strTruthy : Option String → Bool
  | some s => s != ""
  | none => false

/-- `ChedrauiClient._normalize_unit` (api.py lines 388-406). -/
def apiNormalizeUnit (unit : Option String) (measurement_type : Option String) :
    Option String :=
  if unit = none ∧ measurement_type = none then none
  else
    let normalized :=
      if strTruthy unit then some (resolveAlias (unit.getD ""))
      else if strTruthy measurement_type then
        defaultUnitForMeasurement (measurement_type.getD "")
      else none
    match normalized with
    | none => none
    | some n =>
      if (UNIT_TO_MEASUREMENT_TYPE.lookup n).isSome then some n
      else some ((UNIT_ALIASES.lookup "ea").getD "EA")

/-- The single order-item entry of the `POST /cart` payload built by
`async_add_to_cart` (api.py lines 162-175): `uom` present iff the
normalized unit is truthy, `weight` iff supplied. -/
structure AddPayloadItem where
  productId : String
  quantity : ℚ
  uom : Option String
  weight : Option ℚ
deriving DecidableEq

def buildAddPayloadItem (product_id : String) (quantity : ℚ)
    (unit measurement_type : Option String) (weight : Option ℚ) : AddPayloadItem :=
  let normalized := apiNormalizeUnit unit measurement_type
  { productId := product_id, quantity := quantity,
    uom := if strTruthy normalized then normalized else none,
    weight := weight }

/-- The single order-item entry of the `PUT /cart` payload built by
`async_update_cart_item` (api.py lines 199-213); `none` when every update
argument is absent and the method short-circuits to a cart read. -/
structure UpdatePayloadItem where
  orderItemId : String
  quantity : Option ℚ
  uom : Option String
  weight : Option ℚ
deriving DecidableEq

def buildUpdatePayloadItem (item_id : String) (quantity : Option ℚ)
    (unit : Option String) (weight : Option ℚ) (measurement_type : Option String) :
    Option UpdatePayloadItem :=
  if quantity = none ∧ unit = none ∧ weight = none ∧ measurement_type = none then none
  else some { orderItemId := item_id, quantity := quantity,
              uom := apiNormalizeUnit unit measurement_type, weight := weight }

/-- Tail of `async_add_to_cart` (api.py lines 177-186): parse the response,
raise `ChedrauiRequestError` when no confirming record is present,
otherwise return the last parsed item. -/
def addToCartResult (data : Json) : Except String CartItem :=
  match parseCartItems data with
  | .error e => .error e
  | .ok [] => .error "ChedrauiRequestError: Failed to add item to cart"
  | .ok (i :: rest) => .ok (rest.getLastD i)

/-! ### `api.py`: session client (`_request` / `async_login`) -/

/-- One pending remote response: HTTP status and decoded body. -/
structure HttpResp where
  status : ℕ
  body : Json

/-- Errors surfaced by the client (`ChedrauiAuthError`,
`ChedrauiRequestError`); `scriptExhausted` marks an under-specified
response script, never reachable in the claims' scenarios. -/
inductive ChedErr where
  | auth
  | request (status : Option ℕ)
  | scriptExhausted
deriving DecidableEq

def loginPath : String := "/loginidentity"

/-- `_request` with `allow_reauth=False` (api.py lines 243-298) against a
script of pending responses: the outcome, the remaining script, and the
issued request paths (exactly one). -/
def requestNoReauth (path : String) (script : List HttpResp) :
    Except ChedErr Json × List HttpResp × List String :=
  match script with
  | [] => (.error .scriptExhausted, [], [path])
  | r :: rest =>
    if r.status = 401 then (.error .auth, rest, [path])
    else if 400 ≤ r.status then (.error (.request (some r.status)), rest, [path])
    else (.ok r.body, rest, [path])

/-- `x is None` on a decoded body. -/
def isNullJson : Json → Bool
  | .null => true
  | _ => false

/-- `async_login` (api.py lines 119-136): one login POST with
`allow_reauth=False`; an empty (`None`) decoded response is an
authentication error. -/
def loginCall (script : List HttpResp) :
    Except ChedErr Unit × List HttpResp × List String :=
  let r := requestNoReauth loginPath script
  match r.1 with
  | .error e => (.error e, r.2.1, r.2.2)
  | .ok body => if isNullJson body then (.error .auth, r.2.1, r.2.2) else (.ok (), r.2.1, r.2.2)

/-- `_request` with `allow_reauth=True` (api.py lines 243-298), the mode
every authenticated-feature call uses: on a 401 the client drops to
anonymous, re-logs-in once, and retries the original request once with
`allow_reauth=False`. -/
def requestWithReauth (path : String) (script : List HttpResp) :
    Except ChedErr Json × List HttpResp × List String :=
  match script with
  | [] => (.error .scriptExhausted, [], [path])
  | r :: rest =>
    if r.status = 401 then
      let l := loginCall rest
      match l.1 with
      | .error e => (.error e, l.2.1, path :: l.2.2)
      | .ok _ =>
        let q := requestNoReauth path l.2.1
        (q.1, q.2.1, path :: l.2.2 ++ q.2.2)
    else if 400 ≤ r.status then (.error (.request (some r.status)), rest, [path])
    else (.ok r.body, rest, [path])

/-! ### Claim-side comparison definitions -/

/-- Identity extraction as the source computes it (api.py line 333 with the
truthy chain and line 341's emptiness test), for a single record: `none`
when the record is not a mapping or every identity value is falsy. -/
def codeIdentity (raw : Json) : Option String :=
  match raw with
  | .obj _ =>
    let s := pyStr (pyOr (objGet raw "orderItemId")
      (pyOr (objGet raw "id") (pyOr (objGet raw "itemId") (.str ""))))
    if s = "" then none else some s
  | _ => none

/-- Identity extraction as the claim words it: the value of the first
*present* of the three identity keys, coerced to text. -/
def claimIdentity (raw : Json) : Option String :=
  match raw with
  | .obj kvs =>
    match kvs.lookup "orderItemId" <|> kvs.lookup "id" <|> kvs.lookup "itemId" with
    | some v => some (pyStr v)
    | none => none
  | _ => none

/-- Every element of the record list is a mapping or null. -/
def listElemsOk (xs : List Json) : Bool :=
  xs.all (fun x => match x with | .null => true | .obj _ => true | _ => false)

/-- Benign shape for `_parse_cart_items`: either falsy input, or a record
collection that is a list of mappings-or-nulls (non-collection scalars
select the empty collection). -/
def cartShapeOk (data : Json) : Bool :=
  !pyTruthy data ||
    (match data with
     | .obj _ =>
       (match pyOr (objGet data "orderItem") (pyOr (objGet data "orderItems") (.arr [])) with
        | .arr xs => listElemsOk xs
        | _ => false)
     | .arr xs => listElemsOk xs
     | _ => true)

/-- Benign shape for `_parse_search_results`. -/
def searchShapeOk (data : Json) : Bool :=
  !pyTruthy data ||
    (match data with
     | .obj kvs =>
       (match (if (kvs.lookup "catalogEntryView").isSome then
                 (kvs.lookup "catalogEntryView").getD .null
               else
                 match kvs.lookup "product" with
                 | some (.obj pkvs) => (pkvs.lookup "docs").getD (.arr [])
                 | _ => (kvs.lookup "items").getD (.arr [])) with
        | .arr xs => listElemsOk xs
        | _ => false)
     | .arr xs => listElemsOk xs
     | _ => true)

/-- The claim's override rule as amended: a non-null parsed field replaces
the tag-derived field, except that a parsed quantity equal to zero leaves
the tag-derived quantity in place. -/
def overrideCreate (p : ParsedText) (t : CreateParams) : CreateParams :=
  { quantity :=
      match p.quantity with
      | some q => if q = 0 then t.quantity else q
      | none => t.quantity
    unit := match p.unit with | some u => some u | none => t.unit
    measurement_type :=
      match p.measurement_type with | some m => some m | none => t.measurement_type
    product_id := match p.product_id with | some s => some s | none => t.product_id }

/-- The amended override rule on the update side, where every field is
optional. -/
def overrideUpdate (p : ParsedText) (t : Option ℚ × Option String × Option String) :
    Option ℚ × Option String × Option String :=
  (match p.quantity with
   | some q => if q = 0 then t.1 else some q
   | none => t.1,
   match p.unit with | some u => some u | none => t.2.1,
   match p.measurement_type with | some m => some m | none => t.2.2)

/-! ### Theorems: C5 -/

/-- C5: the text parser maps `"2.5 kg"` to quantity 2.5, unit `KGM`,
measurement type `weight` and no product id; maps
`"3 piezas product_id:998877"` to quantity 3, unit `EA`, type `piece`,
product id `"998877"`; both scans take the first left-to-right match
(`"1 kg 2 l product_id:11 product_id:22"` yields the first quantity/unit
and the first id) and are independent (a tag alone parses with no
quantity, a quantity alone with no product id). -/
theorem c5_text_parser_scenarios :
    parseText "2.5 kg" = ⟨some (mkRat 5 2), some "KGM", some "weight", none⟩
    ∧ mkRat 5 2 = (5 : ℚ) / 2
    ∧ parseText "3 piezas product_id:998877"
      = ⟨some 3, some "EA", some "piece", some "998877"⟩
    ∧ parseText "1 kg 2 l product_id:11 product_id:22"
      = ⟨some 1, some "KGM", some "weight", some "11"⟩
    ∧ parseText "product_id: 42" = ⟨none, none, none, some "42"⟩
    ∧ parseText "2,75 litros" = ⟨some (mkRat 11 4), some "LTR", some "volume", none⟩ := by
  refine ⟨rfl, ?_, rfl, rfl, rfl, rfl⟩
  rw [Rat.mkRat_eq_div]
  norm_num

/-! ### Theorems: C9 -/

/-- Every entry of the alias table is returned by lookup on its own key
(the keys are pairwise distinct). -/
theorem UNIT_ALIASES_lookup_complete :
    ∀ p ∈ UNIT_ALIASES, UNIT_ALIASES.lookup p.1 = some p.2 := by decide

/-- C9: alias resolution is a case-insensitive exact lookup — any spelling
whose lowercase form is a table key yields that key's canonical unit; a
miss returns the uppercased input unchanged; and each of the six canonical
unit codes maps to a measurement category. -/
theorem c9_alias_resolution :
    (∀ a u s, (a, u) ∈ UNIT_ALIASES → strLower s = a → resolveAlias s = u)
    ∧ (∀ s, UNIT_ALIASES.lookup (strLower s) = none → resolveAlias s = strUpper s)
    ∧ (∀ u ∈ [PIECE_UNIT, WEIGHT_UNIT_KG, WEIGHT_UNIT_G, WEIGHT_UNIT_LB,
        VOLUME_UNIT_L, VOLUME_UNIT_ML], (UNIT_TO_MEASUREMENT_TYPE.lookup u).isSome = true) := by
  refine ⟨?_, ?_, by decide⟩
  · intro a u s hm hl
    rw [resolveAlias, hl, UNIT_ALIASES_lookup_complete (a, u) hm]
    rfl
  · intro s hl
    rw [resolveAlias, hl]
    rfl

/-- Witness for C9 at concrete inputs: the alias `kilo` spelled `KiLo`
resolves to `KGM`; the unknown `xyz9` passes through uppercased; `GRM` has
a category. -/
theorem c9_alias_resolution_witness :
    ((("kilo", "KGM") ∈ UNIT_ALIASES ∧ strLower "KiLo" = "kilo")
      ∧ resolveAlias "KiLo" = "KGM")
    ∧ (UNIT_ALIASES.lookup (strLower "xyz9") = none ∧ resolveAlias "xyz9" = strUpper "xyz9")
    ∧ ("GRM" ∈ [PIECE_UNIT, WEIGHT_UNIT_KG, WEIGHT_UNIT_G, WEIGHT_UNIT_LB,
        VOLUME_UNIT_L, VOLUME_UNIT_ML]
      ∧ (UNIT_TO_MEASUREMENT_TYPE.lookup "GRM").isSome = true) :=
  ⟨⟨⟨by decide, by decide⟩,
    c9_alias_resolution.1 "kilo" "KGM" "KiLo" (by decide) (by decide)⟩,
   ⟨by decide, c9_alias_resolution.2.1 "xyz9" (by decide)⟩,
   ⟨by decide, c9_alias_resolution.2.2 "GRM" (by decide)⟩⟩

/-! ### Theorems: C10 -/

/-- C10: on the outgoing write path, a supplied unit resolving (alias
lookup, else uppercase) to a code outside the six canonical codes is not
passed through — the payload `uom` becomes the piece code `EA`, for both
the add and the update payloads — and a measurement type alone selects the
defaults EA/KGM/LTR for piece/weight/volume. -/
theorem c10_outgoing_unit_fallback :
    (∀ pid q w s mt, s ≠ "" →
      UNIT_TO_MEASUREMENT_TYPE.lookup (resolveAlias s) = none →
      (buildAddPayloadItem pid q (some s) mt w).uom = some "EA")
    ∧ (∀ id q w s mt, s ≠ "" →
      UNIT_TO_MEASUREMENT_TYPE.lookup (resolveAlias s) = none →
      (buildUpdatePayloadItem id q (some s) w mt).map (fun p => p.uom) = some (some "EA"))
    ∧ (∀ pid q w, (buildAddPayloadItem pid q none (some "piece") w).uom = some "EA")
    ∧ (∀ pid q w, (buildAddPayloadItem pid q none (some "weight") w).uom = some "KGM")
    ∧ (∀ pid q w, (buildAddPayloadItem pid q none (some "volume") w).uom = some "LTR") := by
  have key : ∀ s mt, s ≠ "" → UNIT_TO_MEASUREMENT_TYPE.lookup (resolveAlias s) = none →
      apiNormalizeUnit (some s) mt = some "EA" := by
    intro s mt hs hl
    simp [apiNormalizeUnit, strTruthy, hs, hl]
    decide
  refine ⟨?_, ?_, ?_, ?_, ?_⟩
  · intro pid q w s mt hs hl
    simp [buildAddPayloadItem, key s mt hs hl, strTruthy]
  · intro id q w s mt hs hl
    simp [buildUpdatePayloadItem, key s mt hs hl]
  · intro pid q w; rfl
  · intro pid q w; rfl
  · intro pid q w; rfl

/-- Witness for C10 at the unknown unit `XYZ` and concrete payloads. -/
theorem c10_outgoing_unit_fallback_witness :
    ("XYZ" ≠ "" ∧ UNIT_TO_MEASUREMENT_TYPE.lookup (resolveAlias "XYZ") = none)
    ∧ (buildAddPayloadItem "55" 1 (some "XYZ") none none).uom = some "EA"
    ∧ (buildUpdatePayloadItem "7" none (some "XYZ") none none).map (fun p => p.uom)
      = some (some "EA")
    ∧ (buildAddPayloadItem "55" 1 none (some "weight") none).uom = some "KGM" :=
  ⟨⟨by decide, by decide⟩,
   c10_outgoing_unit_fallback.1 "55" 1 none "XYZ" none (by decide) (by decide),
   c10_outgoing_unit_fallback.2.1 "7" none none "XYZ" none (by decide) (by decide),
   c10_outgoing_unit_fallback.2.2.2.1 "55" 1 none⟩

/-! ### Theorems: C7 -/

/-- C7: when the tag/description merge resolves no product id, a summary
whose stripped text is purely numeric is used verbatim with no search
call; a non-numeric summary issues exactly one `(query, 1)` search whose
top result supplies the product id; and an empty search result fails the
creation with the ValueError, producing no add-to-cart call. -/
theorem c7_summary_resolution :
    (∀ item res, (createMergeParams item).product_id = none →
      String.mk (trimChars item.summary.data) ≠ "" →
      (String.mk (trimChars item.summary.data)).data.all Char.isDigit = true →
      createPlan item res
        = (.ok ⟨String.mk (trimChars item.summary.data), (createMergeParams item).quantity,
                (createMergeParams item).unit, (createMergeParams item).measurement_type⟩, []))
    ∧ (∀ item, (createMergeParams item).product_id = none →
      String.mk (trimChars item.summary.data) ≠ "" →
      (String.mk (trimChars item.summary.data)).data.all Char.isDigit = false →
      createPlan item []
        = (.error "ValueError: Unable to find product for item",
           [(String.mk (trimChars item.summary.data), 1)]))
    ∧ (∀ item r rest, (createMergeParams item).product_id = none →
      String.mk (trimChars item.summary.data) ≠ "" →
      (String.mk (trimChars item.summary.data)).data.all Char.isDigit = false →
      createPlan item (r :: rest)
        = (.ok ⟨r.product_id, (createMergeParams item).quantity,
                (createMergeParams item).unit, (createMergeParams item).measurement_type⟩,
           [(String.mk (trimChars item.summary.data), 1)])) := by
  refine ⟨?_, ?_, ?_⟩
  · intro item res hpid hne hdig
    simp [createPlan, hpid, resolveProductId, hne, hdig]
  · intro item hpid hne hdig
    simp [createPlan, hpid, resolveProductId, hne, hdig]
  · intro item r rest hpid hne hdig
    simp [createPlan, hpid, resolveProductId, hne, hdig]

/-- Witness for C7: the numeric summary `" 123 "` resolves verbatim with
no search; the summary `"Manzana"` searches once, failing on an empty
result and using the top result otherwise. -/
theorem c7_summary_resolution_witness :
    (((createMergeParams { summary := " 123 " }).product_id = none
        ∧ String.mk (trimChars (" 123 " : String).data) ≠ ""
        ∧ (String.mk (trimChars (" 123 " : String).data)).data.all Char.isDigit = true)
      ∧ createPlan { summary := " 123 " } []
          = (.ok ⟨"123", 1, none, none⟩, []))
    ∧ (createPlan { summary := "Manzana" } []
        = (.error "ValueError: Unable to find product for item", [("Manzana", 1)]))
    ∧ (createPlan { summary := "Manzana" }
        [{ product_id := "998877", sku := "998877", name := "Manzana",
           price := none, unit := none, measurement_type := none }]
        = (.ok ⟨"998877", 1, none, none⟩, [("Manzana", 1)])) :=
  ⟨⟨⟨rfl, by decide, rfl⟩,
    c7_summary_resolution.1 { summary := " 123 " } [] rfl (by decide) rfl⟩,
   c7_summary_resolution.2.1 { summary := "Manzana" } rfl (by decide) rfl,
   c7_summary_resolution.2.2 { summary := "Manzana" }
     { product_id := "998877", sku := "998877", name := "Manzana",
       price := none, unit := none, measurement_type := none } [] rfl (by decide) rfl⟩

/-! ### Theorems: C8 -/

/-- C8 counterexample: an add-to-cart whose write succeeded remotely (2xx)
but whose decoded response contains no confirming record raises a request
error instead of returning the caller's original input — the claim's
"every write operation degrades" is false for the add path. -/
theorem c8_add_raises_counterexample :
    addToCartResult .null = .error "ChedrauiRequestError: Failed to add item to cart"
    ∧ addToCartResult (.obj [("orderItem", .arr [])])
      = .error "ChedrauiRequestError: Failed to add item to cart" := ⟨rfl, rfl⟩

/-- C8 amended: the degradation holds for the update flow — when the
refreshed cart holds no record with the updated uid, the caller's original
item is returned unchanged — while the add flow raises a request failure
whenever the decoded response yields no confirming record. -/
theorem c8_update_degrades_add_fails :
    (∀ item uid data, data.all (fun i => i.item_id != uid) = true →
      updateFinish item uid data = item)
    ∧ (∀ d, parseCartItems d = .ok [] →
      addToCartResult d = .error "ChedrauiRequestError: Failed to add item to cart") := by
  constructor
  · intro item uid data h
    have hf : data.find? (fun i => i.item_id == uid) = none := by
      rw [List.find?_eq_none]
      intro x hx
      have hq := List.all_eq_true.mp h x hx
      simp only [bne_iff_ne, ne_eq] at hq
      simp [hq]
    simp [updateFinish, hf]
  · intro d h
    rw [addToCartResult, h]

/-- Witness for C8 at a concrete update miss and the null add response. -/
theorem c8_update_degrades_witness :
    (([({ item_id := "1", product_id := "5", name := "x", quantity := 1, unit := "EA",
          measurement_type := "piece" } : CartItem)].all (fun i => i.item_id != "9")) = true
      ∧ updateFinish { summary := "w" } "9"
          [{ item_id := "1", product_id := "5", name := "x", quantity := 1, unit := "EA",
             measurement_type := "piece" }] = { summary := "w" })
    ∧ (parseCartItems .null = .ok []
      ∧ addToCartResult .null = .error "ChedrauiRequestError: Failed to add item to cart") :=
  ⟨⟨rfl, c8_update_degrades_add_fails.1 { summary := "w" } "9"
      [{ item_id := "1", product_id := "5", name := "x", quantity := 1, unit := "EA",
         measurement_type := "piece" }] rfl⟩,
   ⟨rfl, c8_update_degrades_add_fails.2 .null rfl⟩⟩

/-! ### Theorems: C1 -/

/-- C1: an authenticated-feature call (`allow_reauth=True`) answered with
401 performs exactly one automatic re-login followed by exactly one retry:
the issued trace is `[path, loginPath, path]` and exactly three scripted
responses are consumed.  When the retry is also a 401 the caller sees the
authentication error; when the retry succeeds the caller sees its body
with no visible failure. -/
theorem c1_single_reauth_and_retry :
    ∀ (path : String) (b1 b2 b3 : Json) (st2 st3 : ℕ) (rest : List HttpResp),
      st2 < 400 → isNullJson b2 = false →
      (requestWithReauth path (⟨401, b1⟩ :: ⟨st2, b2⟩ :: ⟨401, b3⟩ :: rest)
        = (.error .auth, rest, [path, loginPath, path]))
      ∧ (st3 < 400 →
        requestWithReauth path (⟨401, b1⟩ :: ⟨st2, b2⟩ :: ⟨st3, b3⟩ :: rest)
          = (.ok b3, rest, [path, loginPath, path])) := by
  intro path b1 b2 b3 st2 st3 rest h2 hb2
  have h2a : ¬ st2 = 401 := by omega
  have h2b : ¬ 400 ≤ st2 := by omega
  constructor
  · simp [requestWithReauth, loginCall, requestNoReauth, h2a, h2b, hb2]
  · intro h3
    have h3a : ¬ st3 = 401 := by omega
    have h3b : ¬ 400 ≤ st3 := by omega
    simp [requestWithReauth, loginCall, requestNoReauth, h2a, h2b, h3a, h3b, hb2]

/-- Witness for C1 at a concrete script: 401, successful login, then
either a second 401 (authentication failure surfaced) or a 200 (success). -/
theorem c1_single_reauth_and_retry_witness :
    ((200 < 400 ∧ isNullJson (Json.obj [("ok", .bool true)]) = false)
     ∧ requestWithReauth "/cart" [⟨401, .null⟩, ⟨200, .obj [("ok", .bool true)]⟩, ⟨401, .null⟩]
        = (.error .auth, [], ["/cart", loginPath, "/cart"])
     ∧ requestWithReauth "/cart" [⟨401, .null⟩, ⟨200, .obj [("ok", .bool true)]⟩, ⟨200, .str "done"⟩]
        = (.ok (.str "done"), [], ["/cart", loginPath, "/cart"])) :=
  ⟨⟨by omega, rfl⟩,
   (c1_single_reauth_and_retry "/cart" .null (.obj [("ok", .bool true)]) .null 200 200 []
      (by omega) rfl).1,
   ((c1_single_reauth_and_retry "/cart" .null (.obj [("ok", .bool true)]) (.str "done") 200 200 []
      (by omega) rfl).2 (by omega))⟩

/-! ### Theorems: C2 -/

/-- A successful association lookup comes from a table entry. -/
theorem lookup_mem_string {l : List (String × String)} {a b : String}
    (h : List.lookup a l = some b) : (a, b) ∈ l := by
  induction l with
  | nil => simp [List.lookup] at h
  | cons p t ih =>
    rcases p with ⟨k, v⟩
    by_cases hk : a = k
    · subst hk
      simp [List.lookup] at h
      simp [h]
    · have hb : (a == k) = false := beq_false_of_ne hk
      rw [List.lookup, hb] at h
      exact List.mem_cons_of_mem _ (ih h)

theorem UNIT_ALIASES_values_ne_empty : ∀ p ∈ UNIT_ALIASES, p.2 ≠ "" := by decide

theorem UNIT_TO_MEASUREMENT_values_ne_empty :
    ∀ p ∈ UNIT_TO_MEASUREMENT_TYPE, p.2 ≠ "" := by decide

theorem mk_eq_empty_iff (l : List Char) : String.mk l = "" ↔ l = [] := by
  constructor
  · intro h
    exact congrArg String.data h
  · rintro rfl
    rfl

theorem strUpper_ne_empty {s : String} (hs : s ≠ "") : strUpper s ≠ "" := by
  rcases s with ⟨l⟩
  intro h
  rw [strUpper, mk_eq_empty_iff] at h
  exact hs (by simpa [mk_eq_empty_iff] using List.map_eq_nil_iff.mp h)

theorem resolveAlias_ne_empty {s : String} (hs : s ≠ "") : resolveAlias s ≠ "" := by
  rw [resolveAlias]
  cases h : List.lookup (strLower s) UNIT_ALIASES with
  | some v =>
    simpa using UNIT_ALIASES_values_ne_empty _ (lookup_mem_string h)
  | none =>
    simpa using strUpper_ne_empty hs

theorem parseText_unit_ne_empty (t : String) :
    ∀ u, (parseText t).unit = some u → u ≠ "" := by
  intro u hx
  simp only [parseText] at hx
  cases h : searchNumUnit t.data with
  | none => simp only [h] at hx; simp at hx
  | some p =>
    obtain ⟨qcs, ucs⟩ := p
    simp only [h] at hx
    by_cases hu : String.mk ucs ≠ ""
    · rw [if_pos hu] at hx
      obtain rfl : resolveAlias (String.mk ucs) = u := Option.some.inj hx
      exact resolveAlias_ne_empty hu
    · rw [if_neg hu] at hx
      simp at hx

theorem parseText_mtype_ne_empty (t : String) :
    ∀ m, (parseText t).measurement_type = some m → m ≠ "" := by
  intro m hx
  simp only [parseText] at hx
  cases h : searchNumUnit t.data with
  | none => simp only [h] at hx; simp at hx
  | some p =>
    obtain ⟨qcs, ucs⟩ := p
    simp only [h] at hx
    by_cases hu : String.mk ucs ≠ ""
    · rw [if_pos hu] at hx
      exact UNIT_TO_MEASUREMENT_values_ne_empty _ (lookup_mem_string hx)
    · rw [if_neg hu] at hx
      simp at hx

theorem matchProductIdAt_ne_nil {cs w} (h : matchProductIdAt cs = some w) : w ≠ [] := by
  simp only [matchProductIdAt] at h
  by_cases h10 : (cs.take 10).map Char.toLower = "product_id".data
  · rw [if_pos h10] at h
    cases hr : (cs.drop 10).dropWhile Char.isWhitespace with
    | nil => rw [hr] at h; exact absurd h (by simp)
    | cons c r2 =>
      simp only [hr] at h
      by_cases hc : c = ':' ∨ c = '='
      · rw [if_pos hc] at h
        by_cases he : (List.takeWhile isWordChar (r2.dropWhile Char.isWhitespace)).isEmpty = true
        · rw [if_pos he] at h; exact absurd h (by simp)
        · rw [if_neg he] at h
          obtain rfl := Option.some.inj h
          simpa [List.isEmpty_iff] using he
      · rw [if_neg hc] at h; exact absurd h (by simp)
  · rw [if_neg h10] at h; exact absurd h (by simp)

theorem searchProductId_ne_nil : ∀ cs w, searchProductId cs = some w → w ≠ [] := by
  intro cs
  induction cs with
  | nil => intro w h; simp [searchProductId] at h
  | cons c t ih =>
    intro w h
    rw [searchProductId] at h
    cases hm : matchProductIdAt (c :: t) with
    | some r =>
      rw [hm, Option.some.injEq] at h
      subst h
      exact matchProductIdAt_ne_nil hm
    | none =>
      rw [hm] at h
      exact ih w h

theorem parseText_pid_ne_empty (t : String) :
    ∀ s, (parseText t).product_id = some s → s ≠ "" := by
  intro s hs
  simp only [parseText] at hs
  rw [Option.map_eq_some'] at hs
  obtain ⟨w, hw, rfl⟩ := hs
  rw [ne_eq, mk_eq_empty_iff]
  exact searchProductId_ne_nil _ _ hw

/-- C2 counterexample: with tag quantity 5 and description `"0 kg"`, the
parsed quantity is non-null (zero) yet the merged quantity is the tag
value 5 on both the create and the update paths — a non-null parsed field
failing to override. -/
theorem c2_zero_quantity_counterexample :
    (parseText "0 kg").quantity = some 0
    ∧ createMergeParams
        { summary := "x", description := some "0 kg",
          extra := some [("quantity", .int 5)] }
      = { product_id := none, quantity := 5, unit := some "KGM",
          measurement_type := some "weight" }
    ∧ updateMergeParams
        { summary := "x", description := some "0 kg",
          extra := some [("quantity", .int 5)] }
      = (some 5, some "KGM", some "weight") := ⟨rfl, rfl, rfl⟩

/-- C2 amended: on both create and update, a truthy description is
re-parsed and every truthy parsed field overrides the tag-derived value —
i.e. every non-null parsed field overrides except a parsed quantity equal
to zero, which leaves the tag-derived quantity in place. -/
theorem c2_description_overrides_tags :
    ∀ item d, item.description = some d → d ≠ "" →
      createMergeParams item = overrideCreate (parseText d) (createTagParams item)
      ∧ updateMergeParams item = overrideUpdate (parseText d) (updateTagParams item) := by
  intro item d hd hne
  have hu := parseText_unit_ne_empty d
  have hm := parseText_mtype_ne_empty d
  have hp := parseText_pid_ne_empty d
  constructor
  · simp only [createMergeParams, hd]
    rw [if_pos hne]
    simp only [overrideCreate, CreateParams.mk.injEq]
    refine ⟨?_, ?_, ?_, ?_⟩
    · cases hx : (parseText d).product_id with
      | none => simp
      | some s => simp [hu, hx, hp s hx]
    · cases hx : (parseText d).quantity with
      | none => simp [pyOrQF]
      | some q => by_cases hq : q = 0 <;> simp [pyOrQF, hq]
    · cases hx : (parseText d).unit with
      | none => simp [pyOrSS]
      | some u => simp [pyOrSS, hu u hx]
    · cases hx : (parseText d).measurement_type with
      | none => simp [pyOrSS]
      | some m => simp [pyOrSS, hm m hx]
  · simp only [updateMergeParams, hd]
    rw [if_pos hne]
    simp only [overrideUpdate]
    refine Prod.ext ?_ (Prod.ext ?_ ?_)
    · cases hx : (parseText d).quantity with
      | none => simp [pyOrQQ]
      | some q => by_cases hq : q = 0 <;> simp [pyOrQQ, hq]
    · cases hx : (parseText d).unit with
      | none => simp [pyOrSS]
      | some u => simp [pyOrSS, hu u hx]
    · cases hx : (parseText d).measurement_type with
      | none => simp [pyOrSS]
      | some m => simp [pyOrSS, hm m hx]

/-- Witness for C2 at a concrete item: description `"2 kg"` with
conflicting tags — the parsed quantity, unit and measurement type all
override. -/
theorem c2_description_overrides_tags_witness :
    (({ summary := "x", description := some "2 kg",
        extra := some [("quantity", .int 5), ("unit", .str "l")] } : TodoItem).description
        = some "2 kg" ∧ ("2 kg" : String) ≠ "")
    ∧ createMergeParams
        { summary := "x", description := some "2 kg",
          extra := some [("quantity", .int 5), ("unit", .str "l")] }
      = overrideCreate (parseText "2 kg")
          (createTagParams
            { summary := "x", description := some "2 kg",
              extra := some [("quantity", .int 5), ("unit", .str "l")] })
    ∧ updateMergeParams
        { summary := "x", description := some "2 kg",
          extra := some [("quantity", .int 5), ("unit", .str "l")] }
      = overrideUpdate (parseText "2 kg")
          (updateTagParams
            { summary := "x", description := some "2 kg",
              extra := some [("quantity", .int 5), ("unit", .str "l")] }) :=
  ⟨⟨rfl, by decide⟩,
   (c2_description_overrides_tags _ "2 kg" rfl (by decide)).1,
   (c2_description_overrides_tags _ "2 kg" rfl (by decide)).2⟩

/-! ### Theorems: C3 -/

/-- The item id produced for a mapping record is exactly the code's truthy
identity extraction. -/
theorem parseCartRecord_item_id (kvs : List (String × Json)) :
    (parseCartRecord (.obj kvs)).map CartItem.item_id = codeIdentity (.obj kvs) := by
  rw [parseCartRecord, codeIdentity]
  by_cases h : pyStr (pyOr (objGet (.obj kvs) "orderItemId")
      (pyOr (objGet (.obj kvs) "id") (pyOr (objGet (.obj kvs) "itemId") (.str "")))) = ""
  · simp [h]
  · simp [h]

/-- The record loop of `_parse_cart_items` succeeds on a list of
mappings-or-nulls, and the produced item ids are exactly the truthy
identities of the surviving records, in order. -/
theorem parseCartLoop_ok (rs : List Json) (h : listElemsOk rs = true) :
    ∃ items, parseCartLoop rs = .ok items
      ∧ items.map CartItem.item_id = rs.filterMap codeIdentity := by
  induction rs with
  | nil => exact ⟨[], rfl, rfl⟩
  | cons x xs ih =>
    have hx := List.all_eq_true.mp h x (by simp)
    have hxs : listElemsOk xs = true :=
      List.all_eq_true.mpr fun y hy => List.all_eq_true.mp h y (by simp [hy])
    obtain ⟨items, hit, hmap⟩ := ih hxs
    cases x with
    | null =>
      exact ⟨items, by simpa [parseCartLoop] using hit, by simp [codeIdentity, hmap]⟩
    | obj kvs =>
      have hid := parseCartRecord_item_id kvs
      cases hrec : parseCartRecord (.obj kvs) with
      | none =>
        refine ⟨items, by simp [parseCartLoop, hit, hrec], ?_⟩
        rw [hrec] at hid
        simp only [Option.map_none'] at hid
        simp [List.filterMap_cons, ← hid, hmap]
      | some it =>
        refine ⟨it :: items, by simp [parseCartLoop, hit, hrec], ?_⟩
        rw [hrec] at hid
        simp only [Option.map_some'] at hid
        simp [List.filterMap_cons, ← hid, hmap]
    | bool b => simp at hx
    | int n => simp at hx
    | float q => simp at hx
    | str s => simp at hx
    | arr ys => simp at hx

/-- C3 counterexample: the record `{"orderItemId": 0}` carries a present
identity key that coerces to the text `"0"`, yet the normalizer drops it
(the code chains the identity keys with truthy `or`, so a falsy value such
as 0 is skipped rather than used). -/
theorem c3_zero_identity_counterexample :
    claimIdentity (.obj [("orderItemId", .int 0)]) = some "0"
    ∧ parseCartItems (.obj [("orderItem", .arr [.obj [("orderItemId", .int 0)]])]) = .ok []
    ∧ parseCartItems (.arr [.obj [("orderItemId", .int 0)]]) = .ok [] := ⟨rfl, rfl, rfl⟩

/-- C3 amended: the normalizer accepts the record list under `orderItem`
or `orderItems`, a bare list, or empty/null input (empty sequence); a
record appears in the output iff some identity key holds a truthy value
(null, empty-string, zero and false identity values are skipped), and the
first such truthy value, stringified, is taken as the item id; records
lacking a truthy identity are dropped silently. -/
theorem c3_normalize_cart_identity (rs : List Json) (h : listElemsOk rs = true) :
    (∃ items, parseCartItems (.obj [("orderItem", .arr rs)]) = .ok items
      ∧ parseCartItems (.obj [("orderItems", .arr rs)]) = .ok items
      ∧ parseCartItems (.arr rs) = .ok items
      ∧ items.map CartItem.item_id = rs.filterMap codeIdentity)
    ∧ parseCartItems .null = .ok [] ∧ parseCartItems (.arr []) = .ok [] := by
  refine ⟨?_, rfl, rfl⟩
  obtain ⟨items, hloop, hmap⟩ := parseCartLoop_ok rs h
  cases rs with
  | nil =>
    have he : items = [] := by simp [parseCartLoop] at hloop; exact hloop
    subst he
    exact ⟨[], rfl, rfl, rfl, by simp⟩
  | cons y ys => exact ⟨items, hloop, hloop, hloop, hmap⟩

/-- Witness for C3 on a synthetic mixed payload: one well-identified
record, one null placeholder, one record lacking identity. -/
theorem c3_normalize_cart_identity_witness :
    listElemsOk [.obj [("orderItemId", .str "11"), ("productId", .str "5")],
        .null, .obj [("name", .str "ghost")]] = true
    ∧ (∃ items,
        parseCartItems (.obj [("orderItem", .arr [.obj [("orderItemId", .str "11"),
            ("productId", .str "5")], .null, .obj [("name", .str "ghost")]])]) = .ok items
        ∧ parseCartItems (.obj [("orderItems", .arr [.obj [("orderItemId", .str "11"),
            ("productId", .str "5")], .null, .obj [("name", .str "ghost")]])]) = .ok items
        ∧ parseCartItems (.arr [.obj [("orderItemId", .str "11"),
            ("productId", .str "5")], .null, .obj [("name", .str "ghost")]]) = .ok items
        ∧ items.map CartItem.item_id
            = [.obj [("orderItemId", .str "11"), ("productId", .str "5")],
               .null, .obj [("name", .str "ghost")]].filterMap codeIdentity) :=
  ⟨rfl,
   (c3_normalize_cart_identity [.obj [("orderItemId", .str "11"), ("productId", .str "5")],
      .null, .obj [("name", .str "ghost")]] rfl).1⟩

/-! ### Theorems: C4 -/

/-- The record loop of `_parse_search_results` succeeds on a list of
mappings-or-nulls. -/
theorem parseSearchLoop_ok (rs : List Json) (h : listElemsOk rs = true) :
    ∃ items, parseSearchLoop rs = .ok items := by
  induction rs with
  | nil => exact ⟨[], rfl⟩
  | cons x xs ih =>
    have hx := List.all_eq_true.mp h x (by simp)
    have hxs : listElemsOk xs = true :=
      List.all_eq_true.mpr fun y hy => List.all_eq_true.mp h y (by simp [hy])
    obtain ⟨items, hit⟩ := ih hxs
    cases x with
    | null => exact ⟨items, by simpa [parseSearchLoop] using hit⟩
    | obj kvs =>
      cases hrec : parseSearchRecord (.obj kvs) with
      | none => exact ⟨items, by simp [parseSearchLoop, hit, hrec]⟩
      | some it => exact ⟨it :: items, by simp [parseSearchLoop, hit, hrec]⟩
    | bool b => simp at hx
    | int n => simp at hx
    | float q => simp at hx
    | str s => simp at hx
    | arr ys => simp at hx

/-- C4 counterexample: a record list containing a non-mapping element makes
both normalizers raise (`AttributeError` on the element's first `.get`),
so "never raises for any list contents" is false. -/
theorem c4_non_mapping_record_counterexample :
    parseCartItems (.arr [.int 5]) = .error "AttributeError: no attribute get"
    ∧ parseSearchResults (.arr [.str "x"]) = .error "AttributeError: no attribute get" :=
  ⟨rfl, rfl⟩

/-- C4 amended: the normalizers never raise on null, scalar, or
string inputs, nor on any input whose selected record collection is a list
of mappings-or-nulls — shape mismatches there only drop records or default
fields; but a non-mapping element inside the record list raises. -/
theorem c4_normalizers_total_on_benign_shapes (data : Json) :
    (cartShapeOk data = true → ∃ items, parseCartItems data = .ok items)
    ∧ (searchShapeOk data = true → ∃ res, parseSearchResults data = .ok res) := by
  constructor
  · intro h
    cases data with
    | obj kvs =>
      simp only [cartShapeOk, pyTruthy, Bool.not_not] at h
      by_cases ht : kvs.isEmpty = true
      · exact ⟨[], by simp [parseCartItems, pyTruthy, ht]⟩
      · simp only [ht, Bool.false_or] at h
        cases hsel : pyOr (objGet (.obj kvs) "orderItem")
            (pyOr (objGet (.obj kvs) "orderItems") (.arr [])) with
        | arr xs =>
          rw [hsel] at h
          obtain ⟨items, hl, _⟩ := parseCartLoop_ok xs h
          have ht2 : pyTruthy (Json.obj kvs) = true := by simp [pyTruthy, ht]
          exact ⟨items, by simp [parseCartItems, ht2, hsel, pyIter, hl]⟩
        | null => rw [hsel] at h; simp at h
        | bool b => rw [hsel] at h; simp at h
        | int n => rw [hsel] at h; simp at h
        | float q => rw [hsel] at h; simp at h
        | str s => rw [hsel] at h; simp at h
        | obj kvs2 => rw [hsel] at h; simp at h
    | arr xs =>
      simp only [cartShapeOk, pyTruthy, Bool.not_not] at h
      by_cases ht : xs.isEmpty = true
      · exact ⟨[], by simp [parseCartItems, pyTruthy, ht]⟩
      · simp only [ht, Bool.false_or] at h
        obtain ⟨items, hl, _⟩ := parseCartLoop_ok xs h
        have ht2 : pyTruthy (Json.arr xs) = true := by simp [pyTruthy, ht]
        exact ⟨items, by simp [parseCartItems, ht2, pyIter, hl]⟩
    | null => exact ⟨[], rfl⟩
    | bool b => exact ⟨[], by cases b <;> rfl⟩
    | int n => exact ⟨[], by by_cases hn : n = 0 <;> simp [parseCartItems, pyTruthy, pyIter, parseCartLoop, hn]⟩
    | float q => exact ⟨[], by by_cases hq : q = 0 <;> simp [parseCartItems, pyTruthy, pyIter, parseCartLoop, hq]⟩
    | str s => exact ⟨[], by by_cases hs : s = "" <;> simp [parseCartItems, pyTruthy, pyIter, parseCartLoop, hs]⟩
  · intro h
    cases data with
    | obj kvs =>
      simp only [searchShapeOk, pyTruthy, Bool.not_not] at h
      by_cases ht : kvs.isEmpty = true
      · exact ⟨[], by simp [parseSearchResults, pyTruthy, ht]⟩
      · simp only [ht, Bool.false_or] at h
        cases hsel : (if (kvs.lookup "catalogEntryView").isSome then
              (kvs.lookup "catalogEntryView").getD .null
            else
              match kvs.lookup "product" with
              | some (.obj pkvs) => (pkvs.lookup "docs").getD (.arr [])
              | _ => (kvs.lookup "items").getD (.arr [])) with
        | arr xs =>
          rw [hsel] at h
          obtain ⟨items, hl⟩ := parseSearchLoop_ok xs h
          have ht2 : pyTruthy (Json.obj kvs) = true := by simp [pyTruthy, ht]
          exact ⟨items, by simp [parseSearchResults, ht2, hsel, pyIter, hl]⟩
        | null => rw [hsel] at h; simp at h
        | bool b => rw [hsel] at h; simp at h
        | int n => rw [hsel] at h; simp at h
        | float q => rw [hsel] at h; simp at h
        | str s => rw [hsel] at h; simp at h
        | obj kvs2 => rw [hsel] at h; simp at h
    | arr xs =>
      simp only [searchShapeOk, pyTruthy, Bool.not_not] at h
      by_cases ht : xs.isEmpty = true
      · exact ⟨[], by simp [parseSearchResults, pyTruthy, ht]⟩
      · simp only [ht, Bool.false_or] at h
        obtain ⟨items, hl⟩ := parseSearchLoop_ok xs h
        have ht2 : pyTruthy (Json.arr xs) = true := by simp [pyTruthy, ht]
        exact ⟨items, by simp [parseSearchResults, ht2, hl]⟩
    | null => exact ⟨[], rfl⟩
    | bool b => exact ⟨[], by cases b <;> rfl⟩
    | int n =>
      exact ⟨[], by by_cases hn : n = 0 <;> simp [parseSearchResults, pyTruthy, hn]⟩
    | float q =>
      exact ⟨[], by by_cases hq : q = 0 <;> simp [parseSearchResults, pyTruthy, hq]⟩
    | str s =>
      exact ⟨[], by by_cases hs : s = "" <;> simp [parseSearchResults, pyTruthy, hs]⟩

/-- Witness for C4 on shape-degenerate payloads: a renamed-field record
(kept with defaults), a null placeholder, and scalar/empty inputs. -/
theorem c4_normalizers_total_witness :
    (cartShapeOk (.obj [("orderItem", .arr [.obj [("itemId", .int 7)], .null])]) = true
      ∧ ∃ items, parseCartItems
          (.obj [("orderItem", .arr [.obj [("itemId", .int 7)], .null])]) = .ok items)
    ∧ (searchShapeOk (.obj [("items", .arr [.obj [("uniqueID", .str "9")]])]) = true
      ∧ ∃ res, parseSearchResults
          (.obj [("items", .arr [.obj [("uniqueID", .str "9")]])]) = .ok res)
    ∧ (cartShapeOk (.str "oops") = true ∧ ∃ items2, parseCartItems (.str "oops") = .ok items2) :=
  ⟨⟨rfl, (c4_normalizers_total_on_benign_shapes
      (.obj [("orderItem", .arr [.obj [("itemId", .int 7)], .null])])).1 rfl⟩,
   ⟨rfl, (c4_normalizers_total_on_benign_shapes
      (.obj [("items", .arr [.obj [("uniqueID", .str "9")]])])).2 rfl⟩,
   ⟨rfl, (c4_normalizers_total_on_benign_shapes (.str "oops")).1 rfl⟩⟩

/-! ### Theorems: C6 — groundwork on characters and scans -/

theorem isDigit_ne_dot {c : Char} (hc : c.isDigit = true) : c ≠ '.' := by
  rintro rfl; revert hc; decide

theorem isDigit_ne_comma {c : Char} (hc : c.isDigit = true) : c ≠ ',' := by
  rintro rfl; revert hc; decide

theorem isDigit_ne_plus {c : Char} (hc : c.isDigit = true) : c ≠ '+' := by
  rintro rfl; revert hc; decide

theorem isDigit_ne_minus {c : Char} (hc : c.isDigit = true) : c ≠ '-' := by
  rintro rfl; revert hc; decide

theorem isDigit_not_ws {c : Char} (hc : c.isDigit = true) : c.isWhitespace = false := by
  cases hw : c.isWhitespace with
  | false => rfl
  | true =>
    exfalso
    simp only [Char.isWhitespace, Bool.or_eq_true, decide_eq_true_eq] at hw
    rcases hw with ((h | h) | h) | h <;> (subst h; revert hc; decide)

theorem isUnitLetter_not_ws {c : Char} (h : isUnitLetter c = true) :
    c.isWhitespace = false := by
  cases hw : c.isWhitespace with
  | false => rfl
  | true =>
    exfalso
    simp only [Char.isWhitespace, Bool.or_eq_true, decide_eq_true_eq] at hw
    rcases hw with ((h2 | h2) | h2) | h2 <;> (subst h2; revert h; decide)

theorem takeWhile_all_append {p : Char → Bool} {xs : List Char}
    (h : ∀ c ∈ xs, p c = true) (l : List Char) :
    (xs ++ l).takeWhile p = xs ++ l.takeWhile p
    ∧ (xs ++ l).dropWhile p = l.dropWhile p := by
  induction xs with
  | nil => simp
  | cons c t ih =>
    have hc : p c = true := h c (by simp)
    have ht : ∀ x ∈ t, p x = true := fun x hx => h x (by simp [hx])
    obtain ⟨h1, h2⟩ := ih ht
    constructor
    · simp [List.takeWhile_cons, hc, h1]
    · simp [List.dropWhile_cons, hc, h2]

theorem takeWhile_all {p : Char → Bool} {xs : List Char}
    (h : ∀ c ∈ xs, p c = true) : xs.takeWhile p = xs ∧ xs.dropWhile p = [] := by
  have := takeWhile_all_append h []
  simpa using this

/-- A position starting with a non-digit never matches the quantity/unit
pattern, so the scan steps past it. -/
theorem searchNumUnit_cons_of_nondigit {c : Char} {cs : List Char}
    (h : c.isDigit = false) : searchNumUnit (c :: cs) = searchNumUnit cs := by
  have hm : matchNumUnitAt (c :: cs) = none := by
    rw [matchNumUnitAt]
    simp [List.takeWhile_cons, h]
  rw [searchNumUnit, hm]

/-- The scan skips any prefix of non-digit characters. -/
theorem searchNumUnit_append_of_nondigit {p : List Char}
    (h : ∀ c ∈ p, c.isDigit = false) (rest : List Char) :
    searchNumUnit (p ++ rest) = searchNumUnit rest := by
  induction p with
  | nil => rfl
  | cons c t ih =>
    rw [List.cons_append,
      searchNumUnit_cons_of_nondigit (h c (by simp)), ih (fun x hx => h x (by simp [hx]))]

/-- The quantity/unit pattern matches a decimal numeral followed by a
space and a letter run, capturing exactly the numeral and the letters. -/
theorem matchNumUnitAt_decimal (ip fp us : List Char)
    (hip : ∀ c ∈ ip, c.isDigit = true) (hip0 : ip ≠ [])
    (hfp : ∀ c ∈ fp, c.isDigit = true) (hfp0 : fp ≠ [])
    (hus : ∀ c ∈ us, isUnitLetter c = true) (hus0 : us ≠ []) :
    matchNumUnitAt (ip ++ '.' :: (fp ++ ' ' :: us)) = some (ip ++ '.' :: fp, us) := by
  have hsplit := takeWhile_all_append hip ('.' :: (fp ++ ' ' :: us))
  have hdot : Char.isDigit '.' = false := by decide
  rw [matchNumUnitAt, hsplit.1, hsplit.2]
  rw [List.takeWhile_cons_of_neg (by simp [hdot]), List.dropWhile_cons_of_neg (by simp [hdot])]
  have hne : (ip ++ ([] : List Char)).isEmpty = false := by
    cases ip with
    | nil => exact absurd rfl hip0
    | cons a b => simp
  rw [List.append_nil] at hne
  rw [if_neg (by simp [hne])]
  rw [matchAfterInt]
  rw [if_pos (Or.inl rfl)]
  have hsplit2 := takeWhile_all_append hfp (' ' :: us)
  have hsp : Char.isDigit ' ' = false := by decide
  rw [hsplit2.1, hsplit2.2]
  rw [List.takeWhile_cons_of_neg (by simp [hsp]), List.dropWhile_cons_of_neg (by simp [hsp])]
  have hfne : (fp ++ ([] : List Char)).isEmpty = false := by
    cases fp with
    | nil => exact absurd rfl hfp0
    | cons a b => simp
  rw [List.append_nil] at hfne
  rw [if_neg (by simp [hfne])]
  simp only [List.append_nil]
  have hfinish : numUnitFinish (ip ++ '.' :: fp) (' ' :: us) = some (ip ++ '.' :: fp, us) := by
    rw [numUnitFinish]
    rw [List.dropWhile_cons_of_pos (by decide)]
    have husdrop : us.dropWhile Char.isWhitespace = us := by
      cases us with
      | nil => rfl
      | cons a b =>
        rw [List.dropWhile_cons_of_neg (by simp [isUnitLetter_not_ws (hus a (by simp))])]
    have hustake : us.takeWhile isUnitLetter = us := (takeWhile_all hus).1
    rw [husdrop, hustake]
    have hune : us.isEmpty = false := by
      cases us with
      | nil => exact absurd rfl hus0
      | cons a b => simp
    rw [if_neg (by simp [hune])]
  rw [hfinish]

/-! ### Theorems: C6 — decimal digits round-trip -/

theorem digitsVal_foldl (t : List Char) :
    ∀ i : ℕ, t.foldl (fun a c => 10 * a + digitVal c) i = i * 10 ^ t.length + digitsVal t := by
  induction t with
  | nil => intro i; simp [digitsVal]
  | cons c t ih =>
    intro i
    rw [digitsVal, List.foldl_cons, List.foldl_cons, ih, ih]
    ring_nf
    simp [pow_succ]
    ring

theorem digitsVal_append (a b : List Char) :
    digitsVal (a ++ b) = digitsVal a * 10 ^ b.length + digitsVal b := by
  rw [digitsVal, List.foldl_append, ← digitsVal, digitsVal_foldl]

theorem digitsVal_replicate_zero (m : ℕ) : digitsVal (List.replicate m '0') = 0 := by
  induction m with
  | zero => rfl
  | succ k ih =>
    rw [List.replicate_succ, digitsVal, List.foldl_cons]
    have : (10 * 0 + digitVal '0') = 0 := by decide
    rw [this, ← digitsVal, ih]

theorem natDigitChar_isDigit {d : ℕ} (h : d < 10) : (natDigitChar d).isDigit = true := by
  interval_cases d <;> decide

theorem digitVal_natDigitChar {d : ℕ} (h : d < 10) : digitVal (natDigitChar d) = d := by
  interval_cases d <;> decide

theorem natToDigitsAux_spec :
    ∀ fuel n, n < fuel →
      (∀ c ∈ natToDigitsAux fuel n, c.isDigit = true)
      ∧ natToDigitsAux fuel n ≠ [] ∧ digitsVal (natToDigitsAux fuel n) = n := by
  intro fuel
  induction fuel with
  | zero => intro n h; omega
  | succ f ih =>
    intro n h
    rw [natToDigitsAux]
    by_cases h10 : n < 10
    · rw [if_pos h10]
      refine ⟨?_, by simp, ?_⟩
      · intro c hc
        rw [List.mem_singleton] at hc
        subst hc
        exact natDigitChar_isDigit h10
      · rw [digitsVal, List.foldl_cons]
        simp [digitVal_natDigitChar h10, digitsVal]
    · rw [if_neg h10]
      have hrec : n / 10 < f := by
        have : n / 10 < n := Nat.div_lt_self (by omega) (by omega)
        omega
      obtain ⟨hd, hne, hv⟩ := ih (n / 10) hrec
      have hm10 : n % 10 < 10 := Nat.mod_lt _ (by omega)
      refine ⟨?_, by simp, ?_⟩
      · intro c hc
        rw [List.mem_append] at hc
        rcases hc with hc | hc
        · exact hd c hc
        · rw [List.mem_singleton] at hc
          subst hc
          exact natDigitChar_isDigit hm10
      · rw [digitsVal_append, hv]
        simp [digitsVal, digitVal_natDigitChar hm10]
        omega

theorem natToDigits_spec (n : ℕ) :
    (∀ c ∈ natToDigits n, c.isDigit = true)
    ∧ natToDigits n ≠ [] ∧ digitsVal (natToDigits n) = n :=
  natToDigitsAux_spec (n + 1) n (by omega)

theorem decExpAux_dvd (d : ℕ) :
    ∀ fuel k, d ∣ 10 ^ (k + fuel) → d ∣ 10 ^ (decExpAux d (fuel + 1) k) := by
  intro fuel
  induction fuel with
  | zero =>
    intro k h
    rw [decExpAux]
    rw [Nat.add_zero] at h
    rw [if_pos h]
    exact h
  | succ f ih =>
    intro k h
    rw [decExpAux]
    by_cases hk : d ∣ 10 ^ k
    · rw [if_pos hk]; exact hk
    · rw [if_neg hk]
      exact ih (k + 1) (by rw [show k + 1 + f = k + (f + 1) by omega]; exact h)

theorem dvd_pow_decExp {d : ℕ} (h : d ∣ 10 ^ 1074) : d ∣ 10 ^ decExp d := by
  rw [decExp, show (1100 : ℕ) = 1099 + 1 from rfl]
  exact decExpAux_dvd d 1099 0
    (dvd_trans h (pow_dvd_pow 10 (by omega)))

/-- Parsing back a plain decimal numeral of the form `ip.fp` recovers the
exact fraction. -/
theorem coerceFloat_decimal (ip fp : List Char)
    (hip : ∀ c ∈ ip, c.isDigit = true) (hip0 : ip ≠ [])
    (hfp : ∀ c ∈ fp, c.isDigit = true) :
    coerceFloat (.str (String.mk (ip ++ '.' :: fp))) none
      = some (mkRat (digitsVal ip * 10 ^ fp.length + digitsVal fp) (10 ^ fp.length)) := by
  have hmapid : ∀ l : List Char, (∀ c ∈ l, c ≠ ',') →
      l.map (fun c => if c = ',' then '.' else c) = l := by
    intro l hl
    induction l with
    | nil => rfl
    | cons a b ihb =>
      rw [List.map_cons, if_neg (hl a (by simp)), ihb (fun x hx => hl x (by simp [hx]))]
  have hnocomma : replaceCommaDot (String.mk (ip ++ '.' :: fp))
      = String.mk (ip ++ '.' :: fp) := by
    rw [replaceCommaDot]
    congr 1
    refine hmapid _ ?_
    intro c hc
    rw [List.mem_append] at hc
    rcases hc with hc | hc
    · exact isDigit_ne_comma (hip c hc)
    · rw [List.mem_cons] at hc
      rcases hc with rfl | hc
      · decide
      · exact isDigit_ne_comma (hfp c hc)
  have hall : ∀ c ∈ ip ++ '.' :: fp, c.isWhitespace = false := by
    intro c hc
    rw [List.mem_append] at hc
    rcases hc with hc | hc
    · exact isDigit_not_ws (hip c hc)
    · rw [List.mem_cons] at hc
      rcases hc with rfl | hc
      · decide
      · exact isDigit_not_ws (hfp c hc)
  have hnows : trimChars (ip ++ '.' :: fp) = ip ++ '.' :: fp := by
    rw [trimChars]
    have h1 : (ip ++ '.' :: fp).dropWhile Char.isWhitespace = ip ++ '.' :: fp := by
      cases hsh : ip ++ '.' :: fp with
      | nil => rfl
      | cons a b =>
        rw [List.dropWhile_cons_of_neg]
        rw [hall a (by rw [hsh]; simp)]
        simp
    rw [h1]
    have h2 : ((ip ++ '.' :: fp).reverse).dropWhile Char.isWhitespace
        = (ip ++ '.' :: fp).reverse := by
      cases hsh : (ip ++ '.' :: fp).reverse with
      | nil => rfl
      | cons a b =>
        rw [List.dropWhile_cons_of_neg]
        have ha : a ∈ ip ++ '.' :: fp := by
          rw [← List.mem_reverse, hsh]; simp
        rw [hall a ha]
        simp
    rw [h2, List.reverse_reverse]
  obtain ⟨c0, ip2, rfl⟩ : ∃ c0 ip2, ip = c0 :: ip2 := by
    cases ip with
    | nil => exact absurd rfl hip0
    | cons a b => exact ⟨a, b, rfl⟩
  have hc0 : c0.isDigit = true := hip c0 (by simp)
  have hdata : (String.mk ((c0 :: ip2) ++ '.' :: fp)).data = (c0 :: ip2) ++ '.' :: fp := rfl
  have hpy : pyFloatOfString (String.mk ((c0 :: ip2) ++ '.' :: fp))
      = some (mkRat (digitsVal (c0 :: ip2) * 10 ^ fp.length + digitsVal fp)
          (10 ^ fp.length)) := by
    rw [pyFloatOfString, hdata, hnows]
    simp only [List.cons_append]
    rw [if_neg (isDigit_ne_plus hc0), if_neg (isDigit_ne_minus hc0)]
    rw [← List.cons_append, parseUnsignedFloatChars]
    have hsplit := takeWhile_all_append hip ('.' :: fp)
    have hdot : Char.isDigit '.' = false := by decide
    rw [hsplit.1, hsplit.2]
    rw [List.takeWhile_cons_of_neg (by simp [hdot]),
      List.dropWhile_cons_of_neg (by simp [hdot])]
    rw [List.append_nil, parseUnsignedAfter]
    rw [if_pos rfl]
    have hfptake := takeWhile_all hfp
    rw [hfptake.1, hfptake.2]
    rw [if_pos (by simp)]
  rw [coerceFloat, hnocomma, hpy]

/-- Properties of the zero-padded digit string split at the decimal point
(the `k ≠ 0` branch of `pyFloatReprChars`). -/
theorem pad_split_spec {s s2 : List Char} {k : ℕ} (hk : ¬ k = 0)
    (hd : ∀ c ∈ s, c.isDigit = true) (hne : s ≠ [])
    (hs2 : s2 = List.replicate (k + 1 - s.length) '0' ++ s) :
    ∃ ip fp, s2.take (s2.length - k) ++ '.' :: s2.drop (s2.length - k) = ip ++ '.' :: fp
      ∧ ip ≠ [] ∧ fp ≠ []
      ∧ (∀ c ∈ ip, c.isDigit = true) ∧ (∀ c ∈ fp, c.isDigit = true)
      ∧ fp.length = k ∧ digitsVal ip * 10 ^ k + digitsVal fp = digitsVal s := by
  refine ⟨s2.take (s2.length - k), s2.drop (s2.length - k), rfl, ?_⟩
  have hs2dig : ∀ c ∈ s2, c.isDigit = true := by
    rw [hs2]
    intro c hc
    rw [List.mem_append] at hc
    rcases hc with hc | hc
    · rw [List.eq_of_mem_replicate hc]; decide
    · exact hd c hc
  have hslen : 1 ≤ s.length := by
    cases s with
    | nil => exact absurd rfl hne
    | cons a b => simp
  have hs2len : k + 1 ≤ s2.length := by
    rw [hs2, List.length_append, List.length_replicate]
    omega
  have hfplen : (s2.drop (s2.length - k)).length = k := by
    rw [List.length_drop]
    omega
  have hiplen : (s2.take (s2.length - k)).length = s2.length - k := by
    rw [List.length_take]
    omega
  have hipfp : s2.take (s2.length - k) ++ s2.drop (s2.length - k) = s2 :=
    List.take_append_drop _ _
  refine ⟨?_, ?_, ?_, ?_, hfplen, ?_⟩
  · intro h0
    rw [h0] at hiplen
    simp at hiplen
    omega
  · intro h0
    rw [h0] at hfplen
    simp at hfplen
    omega
  · intro c hc
    exact hs2dig c (by rw [← hipfp]; exact List.mem_append_left _ hc)
  · intro c hc
    exact hs2dig c (by rw [← hipfp]; exact List.mem_append_right _ hc)
  · have hv := digitsVal_append (s2.take (s2.length - k)) (s2.drop (s2.length - k))
    rw [hipfp, hfplen] at hv
    rw [← hv, hs2, digitsVal_append, digitsVal_replicate_zero, zero_mul, zero_add]

/-- `pyFloatReprChars` of a non-negative finite-decimal rational in the
fixed-notation range (zero, or at least `1/10^4` and below `10^16`, the
two bounds stated in cross-multiplied form on the reduced fraction)
renders a plain decimal numeral `ip.fp` whose value is exactly the
rational. -/
theorem pyFloatReprChars_spec (q : ℚ) (hq : 0 ≤ q) (hden : q.den ∣ 10 ^ 1074)
    (hlo : q = 0 ∨ q.den ≤ 10 ^ 4 * q.num.natAbs)
    (hhi : q.num.natAbs < 10 ^ 16 * q.den) :
    ∃ ip fp, pyFloatReprChars q = ip ++ '.' :: fp
      ∧ ip ≠ [] ∧ fp ≠ []
      ∧ (∀ c ∈ ip, c.isDigit = true) ∧ (∀ c ∈ fp, c.isDigit = true)
      ∧ mkRat (digitsVal ip * 10 ^ fp.length + digitsVal fp) (10 ^ fp.length) = q := by
  have hk : q.den ∣ 10 ^ decExp q.den := dvd_pow_decExp hden
  have hden0 : q.den ≠ 0 := q.den_nz
  have hdenpos : 0 < q.den := Nat.pos_of_ne_zero hden0
  have hnum : (q.num.natAbs : ℤ) = q.num := Int.natAbs_of_nonneg (Rat.num_nonneg.mpr hq)
  have hexact : (q.num.natAbs * 10 ^ decExp q.den / q.den) * q.den
      = q.num.natAbs * 10 ^ decExp q.den :=
    Nat.div_mul_cancel (hk.mul_left q.num.natAbs)
  have hmk : ∀ N D : ℕ, D ≠ 0 → (N : ℤ) * (q.den : ℤ) = q.num * (D : ℤ) →
      mkRat (N : ℤ) D = q := by
    intro N D hD hcross
    have h2 := (Rat.mkRat_eq_iff hD hden0).mpr hcross
    rw [h2, Rat.mkRat_self]
  rcases hlo with hq0 | hlo
  · subst hq0
    refine ⟨['0'], ['0'], rfl, by simp, by simp, ?_, ?_, ?_⟩
    · intro c hc
      rw [List.mem_singleton] at hc
      subst hc
      decide
    · intro c hc
      rw [List.mem_singleton] at hc
      subst hc
      decide
    · rfl
  have hnab : 1 ≤ q.num.natAbs := by
    rcases Nat.eq_zero_or_pos q.num.natAbs with h0 | h1
    · rw [h0, Nat.mul_zero] at hlo
      omega
    · exact h1
  have hpowpos : 0 < 10 ^ decExp q.den := Nat.pos_pow_of_pos _ (by norm_num)
  have hn1 : 1 ≤ q.num.natAbs * 10 ^ decExp q.den / q.den := by
    rw [Nat.le_div_iff_mul_le hdenpos, one_mul]
    calc q.den ≤ 10 ^ decExp q.den := Nat.le_of_dvd hpowpos hk
      _ = 1 * 10 ^ decExp q.den := (one_mul _).symm
      _ ≤ q.num.natAbs * 10 ^ decExp q.den := Nat.mul_le_mul_right _ hnab
  have hn0 : ¬ q.num.natAbs * 10 ^ decExp q.den / q.den = 0 := by omega
  have hsci : ¬ (10 ^ (decExp q.den + 16) ≤ q.num.natAbs * 10 ^ decExp q.den / q.den
      ∨ (q.num.natAbs * 10 ^ decExp q.den / q.den) * 10 ^ 4 < 10 ^ decExp q.den) := by
    push_neg
    constructor
    · rw [Nat.div_lt_iff_lt_mul hdenpos]
      calc q.num.natAbs * 10 ^ decExp q.den
          < (10 ^ 16 * q.den) * 10 ^ decExp q.den := (Nat.mul_lt_mul_right hpowpos).mpr hhi
        _ = 10 ^ (decExp q.den + 16) * q.den := by rw [pow_add]; ring
    · have h2 : 10 ^ decExp q.den * q.den
          ≤ ((q.num.natAbs * 10 ^ decExp q.den / q.den) * 10 ^ 4) * q.den := by
        calc 10 ^ decExp q.den * q.den
            ≤ 10 ^ decExp q.den * (10 ^ 4 * q.num.natAbs) := Nat.mul_le_mul_left _ hlo
          _ = (q.num.natAbs * 10 ^ decExp q.den) * 10 ^ 4 := by ring
          _ = ((q.num.natAbs * 10 ^ decExp q.den / q.den) * q.den) * 10 ^ 4 := by
              rw [hexact]
          _ = ((q.num.natAbs * 10 ^ decExp q.den / q.den) * 10 ^ 4) * q.den := by ring
      exact Nat.le_of_mul_le_mul_right h2 hdenpos
  obtain ⟨hdig, hne, hval⟩ := natToDigits_spec (q.num.natAbs * 10 ^ decExp q.den / q.den)
  by_cases hk0 : decExp q.den = 0
  · refine ⟨natToDigits (q.num.natAbs * 10 ^ decExp q.den / q.den), ['0'], ?_, hne,
      by simp, hdig, ?_, ?_⟩
    · simp only [pyFloatReprChars]
      rw [if_neg hn0, if_neg hsci, if_pos hk0]
    · intro c hc
      rw [List.mem_singleton] at hc
      subst hc
      decide
    · have hden1 : q.den = 1 := Nat.dvd_one.mp (by rw [← pow_zero 10, ← hk0]; exact hk)
      have hn : q.num.natAbs * 10 ^ decExp q.den / q.den = q.num.natAbs := by
        rw [hk0, pow_zero, Nat.mul_one, hden1, Nat.div_one]
      rw [hval, hn]
      have h0 : digitsVal ['0'] = 0 := by decide
      have hl : (['0'] : List Char).length = 1 := rfl
      rw [h0, hl]
      apply hmk
      · norm_num
      · push_cast
        rw [abs_of_nonneg (Rat.num_nonneg.mpr hq), hden1]
        push_cast
        ring
  · obtain ⟨ip, fp, heq, hipne, hfpne, hipdig, hfpdig, hfplen, hvalsplit⟩ :=
      pad_split_spec (s := natToDigits (q.num.natAbs * 10 ^ decExp q.den / q.den))
        hk0 hdig hne rfl
    refine ⟨ip, fp, ?_, hipne, hfpne, hipdig, hfpdig, ?_⟩
    · simp only [pyFloatReprChars]
      rw [if_neg hn0, if_neg hsci, if_neg hk0]
      exact heq
    · rw [hfplen]
      have hcast : (digitsVal ip : ℤ) * 10 ^ decExp q.den + (digitsVal fp : ℤ)
          = ((digitsVal ip * 10 ^ decExp q.den + digitsVal fp : ℕ) : ℤ) := by
        push_cast
        ring
      rw [hcast, hvalsplit, hval]
      apply hmk
      · positivity
      · calc ((q.num.natAbs * 10 ^ decExp q.den / q.den : ℕ) : ℤ) * ((q.den : ℕ) : ℤ)
            = ((q.num.natAbs * 10 ^ decExp q.den / q.den * q.den : ℕ) : ℤ) :=
              (Nat.cast_mul _ _).symm
          _ = ((q.num.natAbs * 10 ^ decExp q.den : ℕ) : ℤ) := by rw [hexact]
          _ = ((q.num.natAbs : ℕ) : ℤ) * ((10 ^ decExp q.den : ℕ) : ℤ) := Nat.cast_mul _ _
          _ = q.num * ((10 ^ decExp q.den : ℕ) : ℤ) := by rw [hnum]

theorem mk_data (s : String) : String.mk s.data = s := by
  rcases s with ⟨l⟩
  rfl

theorem data_ne_nil_of_ne_empty {s : String} (h : s ≠ "") : s.data ≠ [] := by
  rcases s with ⟨l⟩
  intro h2
  exact h (by rw [show l = [] from h2])

theorem pyOrQQ_self (a : Option ℚ) : pyOrQQ a a = a := by
  rcases a with _ | q
  · rfl
  · by_cases h : q = 0 <;> simp [pyOrQQ, h]

theorem pyOrSS_self (a : Option String) : pyOrSS a a = a := by
  rcases a with _ | s
  · rfl
  · by_cases h : s = "" <;> simp [pyOrSS, h]

/-- Parsing the description `"Cantidad: {repr q} {u}"` generated by
`_cart_item_to_todo` recovers the quantity, the alias-resolved unit, and
the unit's category. -/
theorem parseText_description (q : ℚ) (hq : 0 ≤ q) (hden : q.den ∣ 10 ^ 1074)
    (hlo : q = 0 ∨ q.den ≤ 10 ^ 4 * q.num.natAbs)
    (hhi : q.num.natAbs < 10 ^ 16 * q.den)
    (u : String) (hu0 : u ≠ "") (hul : ∀ c ∈ u.data, isUnitLetter c = true) :
    (parseText ("Cantidad: " ++ pyFloatRepr q ++ " " ++ u)).quantity = some q
    ∧ (parseText ("Cantidad: " ++ pyFloatRepr q ++ " " ++ u)).unit = some (resolveAlias u)
    ∧ (parseText ("Cantidad: " ++ pyFloatRepr q ++ " " ++ u)).measurement_type
      = UNIT_TO_MEASUREMENT_TYPE.lookup (resolveAlias u) := by
  obtain ⟨ip, fp, hrepr, hipne, hfpne, hipdig, hfpdig, hvq⟩ :=
    pyFloatReprChars_spec q hq hden hlo hhi
  have hud0 : u.data ≠ [] := data_ne_nil_of_ne_empty hu0
  have hreprS : pyFloatRepr q = String.mk (ip ++ '.' :: fp) := by
    rw [pyFloatRepr, if_neg (not_lt.mpr hq), hrepr]
  have hdata : ("Cantidad: " ++ pyFloatRepr q ++ " " ++ u).data
      = "Cantidad: ".data ++ (ip ++ '.' :: (fp ++ ' ' :: u.data)) := by
    rw [hreprS, String.data_append, String.data_append, String.data_append]
    show "Cantidad: ".data ++ (ip ++ '.' :: fp) ++ (" " : String).data ++ u.data = _
    rw [show (" " : String).data = [' '] from rfl]
    simp
  have hscan : searchNumUnit ("Cantidad: " ++ pyFloatRepr q ++ " " ++ u).data
      = some (ip ++ '.' :: fp, u.data) := by
    rw [hdata,
      searchNumUnit_append_of_nondigit (p := "Cantidad: ".data) (by decide)]
    obtain ⟨c0, ip2, rfl⟩ : ∃ c0 ip2, ip = c0 :: ip2 := by
      cases ip with
      | nil => exact absurd rfl hipne
      | cons a b => exact ⟨a, b, rfl⟩
    have hm := matchNumUnitAt_decimal (c0 :: ip2) fp u.data hipdig (by simp) hfpdig hfpne
      hul hud0
    rw [List.cons_append] at hm ⊢
    rw [searchNumUnit, hm]
  have hcoerce := coerceFloat_decimal ip fp hipdig hipne hfpdig
  refine ⟨?_, ?_, ?_⟩
  · simp only [parseText, hscan, mk_data]
    rw [if_pos hu0]
    simp only [hcoerce, hvq]
  · simp only [parseText, hscan, mk_data]
    rw [if_pos hu0]
  · simp only [parseText, hscan, mk_data]
    rw [if_pos hu0]

/-- C6 counterexample: for the cart item with quantity 3 and (uppercased
remote) unit `"2L"`, the generated description is `"Cantidad: 3.0 2L"`;
re-parsing it matches `"2 L"` inside the unit text, so the update-side
merge recovers quantity 2 and unit `LTR` — not the original quantity 3 and
unit `"2L"`.  The round trip fails for this CartItem. -/
theorem c6_round_trip_counterexample :
    updatePlan (cartItemToTodo (some
        { item_id := "7", product_id := "55", name := "Agua",
          quantity := 3, unit := "2L", measurement_type := "volume" }))
      = .ok (.update "7" (some 2) (some "LTR") (some "volume"))
    ∧ UpdateAction.update "7" (some 2) (some "LTR") (some "volume")
      ≠ .update "7" (some 3) (some "2L") (some "volume") := by
  constructor
  · rfl
  · decide

/-- C6 amended: the round trip holds for every CartItem whose quantity is a
non-negative finite-decimal float in the fixed-notation printing range
(zero, or at least `1/10^4` and below `10^16`, so that Python renders it
without scientific notation; the bounds are stated in cross-multiplied
form on the reduced fraction), whose unit is a non-empty all-letter
string fixed under alias resolution, and whose measurement type is
consistent (equal to the unit's category when the unit is known; otherwise
non-empty and strip-fixed): converting to a checklist item and feeding the
result unmodified through the update-side merge recovers the same
quantity, unit and measurement type. -/
theorem c6_round_trip (it : CartItem)
    (hq : 0 ≤ it.quantity) (hden : it.quantity.den ∣ 10 ^ 1074)
    (hlo : it.quantity = 0 ∨ it.quantity.den ≤ 10 ^ 4 * it.quantity.num.natAbs)
    (hhi : it.quantity.num.natAbs < 10 ^ 16 * it.quantity.den)
    (hu0 : it.unit ≠ "") (hul : ∀ c ∈ it.unit.data, isUnitLetter c = true)
    (hufix : resolveAlias it.unit = it.unit)
    (hm : match UNIT_TO_MEASUREMENT_TYPE.lookup it.unit with
      | some cat => it.measurement_type = cat
      | none => it.measurement_type ≠ ""
          ∧ String.mk (trimChars it.measurement_type.data) = it.measurement_type) :
    updatePlan (cartItemToTodo (some it))
      = .ok (.update it.item_id (some it.quantity) (some it.unit)
          (some it.measurement_type)) := by
  have htodo : cartItemToTodo (some it) =
      { summary := it.name, uid := some it.item_id, status := .needsAction,
        description := some ("Cantidad: " ++ pyFloatRepr it.quantity ++ " " ++ it.unit),
        extra := some [("product_id", .str it.product_id),
                       (ATTR_QUANTITY, .float it.quantity),
                       (ATTR_UNIT, .str it.unit),
                       (ATTR_MEASUREMENT_TYPE, .str it.measurement_type)] } := by
    simp only [cartItemToTodo]
    rw [if_pos hu0]
  have hdne : ("Cantidad: " ++ pyFloatRepr it.quantity ++ " " ++ it.unit) ≠ "" := by
    intro h
    have h2 := congrArg String.data h
    rw [String.data_append, String.data_append, String.data_append,
      show ("Cantidad: " : String).data = 'C' :: ("antidad: " : String).data from rfl,
      show ("" : String).data = [] from rfl] at h2
    simp at h2
  obtain ⟨hpq, hpu, hpm⟩ := parseText_description it.quantity hq hden hlo hhi it.unit hu0 hul
  have htags : updateTagParams (cartItemToTodo (some it))
      = (some it.quantity, some it.unit,
         normalizeStr (.str it.measurement_type)) := by
    rw [htodo]
    show (coerceFloat (.float it.quantity) none, todoNormalizeUnit (.str it.unit),
        normalizeStr (.str it.measurement_type))
      = (some it.quantity, some it.unit, normalizeStr (.str it.measurement_type))
    rw [show coerceFloat (.float it.quantity) none = some it.quantity from rfl]
    rw [show todoNormalizeUnit (.str it.unit)
        = if it.unit ≠ "" then some (resolveAlias it.unit) else none from rfl]
    rw [if_pos hu0, hufix]
  have hmerge : updateMergeParams (cartItemToTodo (some it))
      = (some it.quantity, some it.unit, some it.measurement_type) := by
    rw [updateMergeParams, htags]
    rw [show (cartItemToTodo (some it)).description
        = some ("Cantidad: " ++ pyFloatRepr it.quantity ++ " " ++ it.unit) from
      by rw [htodo]]
    simp only
    rw [if_pos hdne]
    rw [hpq, hpu, hpm, hufix, pyOrQQ_self, pyOrSS_self]
    refine Prod.ext rfl (Prod.ext rfl ?_)
    · cases hlk : List.lookup it.unit UNIT_TO_MEASUREMENT_TYPE with
      | some cat =>
        rw [hlk] at hm
        replace hm : it.measurement_type = cat := hm
        have hcat : cat ≠ "" := UNIT_TO_MEASUREMENT_values_ne_empty _ (lookup_mem_string hlk)
        rw [hm]
        simp [pyOrSS, hcat]
      | none =>
        rw [hlk] at hm
        replace hm : it.measurement_type ≠ ""
            ∧ String.mk (trimChars it.measurement_type.data) = it.measurement_type := hm
        simp only [pyOrSS, normalizeStr]
        rw [if_pos hm.1, hm.2]
  have huid : (cartItemToTodo (some it)).uid = some it.item_id := by rw [htodo]
  have hstatus : (cartItemToTodo (some it)).status = TodoStatus.needsAction := by rw [htodo]
  simp [updatePlan, huid, hstatus, hmerge]

/-- Witness for C6 at the cart item (id 10, product 55, "Manzana",
quantity 2.5, unit KGM, weight). -/
theorem c6_round_trip_witness :
    ((0 : ℚ) ≤ mkRat 5 2 ∧ (mkRat 5 2).den ∣ 10 ^ 1074
      ∧ (mkRat 5 2).den ≤ 10 ^ 4 * (mkRat 5 2).num.natAbs
      ∧ (mkRat 5 2).num.natAbs < 10 ^ 16 * (mkRat 5 2).den
      ∧ ("KGM" : String) ≠ "" ∧ (∀ c ∈ ("KGM" : String).data, isUnitLetter c = true)
      ∧ resolveAlias "KGM" = "KGM"
      ∧ UNIT_TO_MEASUREMENT_TYPE.lookup "KGM" = some "weight")
    ∧ updatePlan (cartItemToTodo (some
        { item_id := "10", product_id := "55",
          name := "Manzana", quantity := mkRat 5 2, unit := "KGM",
          measurement_type := "weight" }))
      = .ok (.update "10" (some (mkRat 5 2)) (some "KGM") (some "weight")) :=
  ⟨⟨by decide,
    by rw [show (mkRat 5 2).den = 2 from rfl]; exact dvd_pow ⟨5, rfl⟩ (by norm_num),
    by decide, by decide, by decide, by decide, by decide, by decide⟩,
   c6_round_trip
     { item_id := "10", product_id := "55", name := "Manzana",
       quantity := mkRat 5 2, unit := "KGM", measurement_type := "weight" }
     (by decide)
     (by rw [show (mkRat 5 2).den = 2 from rfl]; exact dvd_pow ⟨5, rfl⟩ (by norm_num))
     (Or.inr (by decide)) (by decide)
     (by decide) (by decide) (by decide) rfl⟩
